import Mathlib

/-
Verification development for the RAIH_API repository (RAIH_CHATBOT component).

The Python sources `src/RAIH_CHATBOT/SQLAgent.py` and
`src/RAIH_CHATBOT/OpenArena_ChatbotChain.py` are shallowly embedded below.
Python strings are modelled as `List Char` (named `Str`), Python floats as `ℚ`,
fallible calls as `Except`/option-carrying oracles supplied through environment
records, and the warehouse / LLM services as deterministic oracle functions.
Exceptions raised and caught inside a function body are modelled with explicit
error-carrying return types mirroring the `try`/`except` structure of the code.
-/

namespace RAIH

/-- Python strings are modelled as lists of characters so that all string
operations used by the code (startswith, strip, lower, upper, replace, split,
slicing) compute by structural recursion. -/
abbrev Str := List Char

/-- Characters treated as whitespace by Python `str.strip()`. -/
def pyIsSpace (c : Char) : Bool :=
  c = ' ' ∨ c = '\t' ∨ c = '\n' ∨ c = '\r' ∨ c = '\x0b' ∨ c = '\x0c'

/-- Python `s.strip()`: drop whitespace from both ends. -/
def pyStrip (s : Str) : Str :=
  ((s.dropWhile pyIsSpace).reverse.dropWhile pyIsSpace).reverse

/-- Python `s.lower()` (ASCII case mapping, as used by the code). -/
def pyLower (s : Str) : Str := s.map Char.toLower

/-- Python `s.upper()` (ASCII case mapping, as used by the code). -/
def pyUpper (s : Str) : Str := s.map Char.toUpper

/-- Python `s.startswith(p)`. -/
def pyStartsWith (s p : Str) : Bool := p.isPrefixOf s

/-- Python `needle in hay` on strings: substring containment. -/
def pyContains (hay needle : Str) : Bool :=
  match hay with
  | [] => needle.isEmpty
  | _ :: t => needle.isPrefixOf hay || pyContains t needle

/-- Python `s.split(sep)` for a one-character separator (the code only splits
on a newline).  Splitting the empty string yields a singleton empty line, matching Python. -/
def pySplit (sep : Char) : Str → List Str
  | [] => [[]]
  | c :: rest =>
    let r := pySplit sep rest
    if c = sep then [] :: r
    else
      match r with
      | [] => [[c]]
      | h :: t => (c :: h) :: t

/-- Fueled worker for `pyReplace`; the fuel is the length of the subject,
which bounds the number of recursion steps. -/
def pyReplaceAux (pat rep : Str) : Nat → Str → Str
  | 0, s => s
  | _ + 1, [] => []
  | fuel + 1, c :: t =>
    if pat ≠ [] ∧ pat.isPrefixOf (c :: t) then
      rep ++ pyReplaceAux pat rep fuel ((c :: t).drop pat.length)
    else
      c :: pyReplaceAux pat rep fuel t

/-- Python `s.replace(pat, rep)`: replace every (left-to-right,
non-overlapping) occurrence of `pat` by `rep`. -/
def pyReplace (s pat rep : Str) : Str := pyReplaceAux pat rep s.length s

/-- The property that `needle` occurs as a contiguous substring of `hay`
(used to state that a response text contains an error message / a query). -/
def occursIn (needle hay : Str) : Prop := ∃ p s, hay = p ++ needle ++ s

/-- Lexicographic boolean comparison of strings by character code, modelling
the warehouse collation used by `ORDER BY TABLE_NAME`. -/
def strLeB : Str → Str → Bool
  | [], _ => true
  | _ :: _, [] => false
  | a :: as, b :: bs =>
    if a = b then strLeB as bs else decide (a < b)

/-- Insert into a `strLeB`-sorted list. -/
def insertSorted (x : Str) : List Str → List Str
  | [] => [x]
  | y :: ys => if strLeB x y then x :: y :: ys else y :: insertSorted x ys

/-- Insertion sort by `strLeB`, modelling the `ORDER BY TABLE_NAME` clause of
the metadata query. -/
def sortStrs : List Str → List Str
  | [] => []
  | x :: xs => insertSorted x (sortStrs xs)

/-! ## Data model of `SQLAgent.py` -/

/-- A value stored in a warehouse result cell. -/
inductive Cell where
  | str (s : Str)
  | int (i : Int)
  | null
deriving DecidableEq, Repr

/-- A pandas `DataFrame` as produced by `SnowflakeConnection.execute_query`:
column names plus rows of cells.  `pd.DataFrame()` is `⟨[], []⟩`. -/
structure DataFrame where
  cols : List Str
  rows : List (List Cell)
deriving DecidableEq, Repr

/-- pandas `df.empty`: true when the frame has no items. -/
def DataFrame.isEmptyDF (df : DataFrame) : Bool :=
  df.rows.isEmpty || df.cols.isEmpty

/-- pandas `to_dict` in records orientation: each row as a list of
(column name, value) pairs. -/
def DataFrame.toRecords (df : DataFrame) : List (List (Str × Cell)) :=
  df.rows.map (fun r => df.cols.zip r)

/-- Look a column up in a record (column subscript); `none` models the `KeyError`
Python raises when the column is absent. -/
def recordGet (row : List (Str × Cell)) (col : Str) : Option Cell :=
  match row.find? (fun p => p.1 = col) with
  | some p => some p.2
  | none => none

/-- The fields of `QueryResult` (SQLAgent.py, lines 52-59) that the embedded
code reads: `success`, `data`, `error`, `row_count`.  (`query` and
`execution_time` are echoes of the inputs and wall-clock time; they are not
read by any code path under verification.) -/
structure QueryResult where
  success : Bool
  data : Option DataFrame
  error : Option Str
  rowCount : Option Nat
deriving DecidableEq, Repr

/-- Class `TableInfo` (SQLAgent.py, lines 62-68).  `columns` is the
`to_dict` records form in which the code stores the columns result;
`row_count` holds whatever cell the first ROW_COUNT entry produced. -/
structure TableInfo where
  tableName : Str
  columns : List (List (Str × Cell))
  sampleData : Option DataFrame
  rowCount : Option Cell
deriving DecidableEq, Repr

/-- Python `f"{x}"` on an `Optional[str]`: `None` prints as `"None"`. -/
def optStr (o : Option Str) : Str := o.getD "None".data

/-! ## Warehouse metadata and `SQLAgent.get_available_tables`
(SQLAgent.py, lines 271-297) -/

/-- One row of `INFORMATION_SCHEMA.TABLES` as read by the metadata query:
table name, schema, and the nullable `ROW_COUNT` column. -/
structure TableMeta where
  name : Str
  tableSchema : Str
  rowCount : Option Int
deriving DecidableEq, Repr

/-- The warehouse as seen by the metadata query: the current schema, the
`INFORMATION_SCHEMA.TABLES` rows, and — when `metadataError` is set — a
failure of the metadata query itself (connection error, timeout, ...). -/
structure WarehouseState where
  currentSchema : Str
  tables : List TableMeta
  metadataError : Option Str
deriving DecidableEq, Repr

/-- SQL three-valued truth values. -/
inductive SqlBool where
  | tt
  | ff
  | nullv
deriving DecidableEq, Repr

/-- SQL `AND`. -/
def sqlAnd : SqlBool → SqlBool → SqlBool
  | .ff, _ => .ff
  | _, .ff => .ff
  | .tt, .tt => .tt
  | _, _ => .nullv

/-- SQL `OR`. -/
def sqlOr : SqlBool → SqlBool → SqlBool
  | .tt, _ => .tt
  | _, .tt => .tt
  | .ff, .ff => .ff
  | _, _ => .nullv

/-- Embed a two-valued condition into SQL logic. -/
def sqlOf (b : Bool) : SqlBool := if b then .tt else .ff

/-- SQL `x IS NOT NULL`. -/
def sqlIsNotNull (v : Option Int) : SqlBool := sqlOf v.isSome

/-- SQL `x <> n` on a nullable integer. -/
def sqlNeq (v : Option Int) (n : Int) : SqlBool :=
  match v with
  | none => .nullv
  | some x => sqlOf (decide (x ≠ n))

/-- The `WHERE` clause of the metadata query in `get_available_tables`,
evaluated with standard SQL operator precedence (`AND` binds tighter than
`OR`), on one `INFORMATION_SCHEMA.TABLES` row:

`TABLE_SCHEMA = CURRENT_SCHEMA() AND ROW_COUNT IS NOT null AND`
`ROW_COUNT <> 0 AND TABLE_NAME LIKE \x27ONETRUST%\x27`
`OR TABLE_NAME LIKE \x27DIA_TRACKING_DATA_OT\x27` -/
def tablesWhereCond (cur : Str) (t : TableMeta) : SqlBool :=
  sqlOr
    (sqlAnd
      (sqlAnd
        (sqlAnd (sqlOf (t.tableSchema = cur)) (sqlIsNotNull t.rowCount))
        (sqlNeq t.rowCount 0))
      (sqlOf (pyStartsWith t.name "ONETRUST".data)))
    (sqlOf (t.name = "DIA_TRACKING_DATA_OT".data))

/-- The column name of the metadata result. -/
def tableNameCol : Str := "TABLE_NAME".data

/-- The warehouse evaluating the metadata query of `get_available_tables`,
packaged the way `SnowflakeConnection.execute_query` (lines 137-181) packages
it: on failure `success=False` with the error text; on success, a data frame
with a `TABLE_NAME` column holding the matching names in `ORDER BY` order —
except that with zero matching rows the code builds a bare `pd.DataFrame()`
with no columns (the `if columns and rows` branch, line 153). -/
def evalTablesQuery (w : WarehouseState) : QueryResult :=
  match w.metadataError with
  | some e => { success := false, data := none, error := some e, rowCount := none }
  | none =>
    let names :=
      sortStrs (((w.tables.filter
        (fun t => tablesWhereCond w.currentSchema t = .tt)).map TableMeta.name))
    if names.isEmpty then
      { success := true, data := some ⟨[], []⟩, error := none, rowCount := some 0 }
    else
      { success := true,
        data := some ⟨[tableNameCol], names.map (fun n => [Cell.str n])⟩,
        error := none,
        rowCount := some names.length }

/-- Extract a column of a data frame as a list of cells
(`df[\x27TABLE_NAME\x27]`); `none` models the `KeyError` on a missing column. -/
def colValues (df : DataFrame) (col : Str) : Option (List Cell) :=
  if col ∈ df.cols then
    some (df.rows.map (fun r => r.getD (df.cols.indexOf col) Cell.null))
  else
    none

/-- Underlying string of a cell (the metadata result holds only strings). -/
def cellStr : Cell → Str
  | .str s => s
  | .int _ => []
  | .null => []

/-- Method `SQLAgent.get_available_tables` (lines 271-297): run the metadata query;
on success extract `result.data[\x27TABLE_NAME\x27].tolist()`; any exception —
in particular the `KeyError` raised on the column-less empty frame — and any
failed query yield `[]`. -/
def getAvailableTables (w : WarehouseState) : List Str :=
  let result := evalTablesQuery w
  if result.success then
    match result.data with
    | some df =>
      match colValues df tableNameCol with
      | some cells => cells.map cellStr
      | none => []
    | none => []
  else []

/-- Modelled from the spec (for comparison with `getAvailableTables`): "the
names of non-empty warehouse tables that match the configured name filter
(the ONETRUST prefix / DIA_TRACKING_DATA_OT allow-list) in the current
schema, in sorted order". -/
def specAvailableTables (w : WarehouseState) : List Str :=
  if w.metadataError.isSome then []
  else
    sortStrs ((w.tables.filter (fun t =>
      t.tableSchema = w.currentSchema ∧
      t.rowCount ≠ none ∧ t.rowCount ≠ some 0 ∧
      (pyStartsWith t.name "ONETRUST".data ∨
        t.name = "DIA_TRACKING_DATA_OT".data))).map TableMeta.name)

/-! ## `SQLAgent.get_table_ddl` (SQLAgent.py, lines 350-402) -/

/-- The three per-table queries issued on a schema-cache miss.  The query
texts are fixed templates over the table name (columns from
`INFORMATION_SCHEMA.COLUMNS`, `SELECT * ... LIMIT 5`, `SELECT COUNT(*)`), so
they are represented by their kind plus the table name. -/
inductive DDLQuery where
  | columns (table : Str)
  | sample (table : Str)
  | countRows (table : Str)
deriving DecidableEq, Repr

/-- The warehouse answering per-table DDL queries (deterministically: the
claims quantify over call sequences with no intervening warehouse change). -/
structure DBEnv where
  exec : DDLQuery → QueryResult

/-- The mutable `self.schema_cache` of `SQLAgent`. -/
structure SchemaState where
  schemaCache : List (Str × TableInfo)
deriving DecidableEq, Repr

/-- Association-list lookup for the schema cache. -/
def lookupCache (cache : List (Str × TableInfo)) (name : Str) : Option TableInfo :=
  match cache.find? (fun p => p.1 = name) with
  | some p => some p.2
  | none => none

/-- Column name of the `SELECT COUNT(*) as ROW_COUNT` result. -/
def rowCountCol : Str := "ROW_COUNT".data

/-- The cache-miss body of `get_table_ddl` (the `try` block, lines 355-402):
issue the metadata/sample/count queries and build the `TableInfo`.  Returns
the info, whether line 396 (`self.schema_cache[table_name] = table_info`) was
reached, and the number of warehouse queries issued.  Paths:
* columns query failed or returned no frame: `TableInfo(name, [])`, not
  cached (one query, early return on line 375);
* `count_result.success` with `data=None`, or a non-empty count frame lacking
  the `ROW_COUNT` column: the `AttributeError`/`KeyError` raised on line 387
  is caught by the `except` and yields `TableInfo(name, [])`, not cached
  (three queries);
* otherwise the merged `TableInfo` is cached and returned (three queries). -/
def fetchTableDDL (env : DBEnv) (name : Str) : TableInfo × Bool × Nat :=
  let r1 := env.exec (.columns name)
  match r1.success, r1.data with
  | true, some df1 =>
    let columns := df1.toRecords
    let r2 := env.exec (.sample name)
    let sample := if r2.success then r2.data else none
    let r3 := env.exec (.countRows name)
    match r3.success, r3.data with
    | true, none => (⟨name, [], none, none⟩, false, 3)
    | true, some df3 =>
      if df3.isEmptyDF then (⟨name, columns, sample, none⟩, true, 3)
      else
        match recordGet (df3.toRecords.getD 0 []) rowCountCol with
        | none => (⟨name, [], none, none⟩, false, 3)
        | some v => (⟨name, columns, sample, some v⟩, true, 3)
    | false, _ => (⟨name, columns, sample, none⟩, true, 3)
  | _, _ => (⟨name, [], none, none⟩, false, 1)

/-- Method `SQLAgent.get_table_ddl` (lines 350-402): serve from `self.schema_cache`
when present (lines 352-353, no warehouse query); otherwise run the fetch
body, caching its result exactly when line 396 was reached.  Returns the
`TableInfo`, the updated cache state, and the number of warehouse queries
issued. -/
def getTableDDL (env : DBEnv) (s : SchemaState) (name : Str) :
    TableInfo × SchemaState × Nat :=
  match lookupCache s.schemaCache name with
  | some ti => (ti, s, 0)
  | none =>
    let f := fetchTableDDL env name
    (f.1, if f.2.1 then ⟨(name, f.1) :: s.schemaCache⟩ else s, f.2.2)

/-! ## `SQLAgent.process_question` and its retry loop
(SQLAgent.py, lines 602-749) -/

/-- Environment of `SQLAgent.process_question`: the warehouse (metadata and
arbitrary generated SQL), and the LLM-driven steps as oracles.
`determineRelevantTables`, `generateSQL`, `validateQuery` and
`correctQueryErrors` wrap single LLM calls whose outputs are free-form text;
`formatSuccess` is the success branch of `format_response` (LLM summarization
plus CSV file IO). -/
structure SQLAgentEnv where
  warehouse : WarehouseState
  db : DBEnv
  exec : Str → QueryResult
  determineRelevantTables : Str → List Str → List Str
  generateSQL : Str → List TableInfo → Str
  validateQuery : Str → List TableInfo → Bool × Str × Str
  correctQueryErrors : Str → Str → List TableInfo → Str
  formatSuccess : Str → QueryResult → Str → Str

/-- The failure branch of `SQLAgent.format_response` (lines 608-617): the
exact f-string built when `query_result.success` is false. -/
def formatFailureMsg (question err query : Str) : Str :=
  "\nI apologize, but I encountered an error while executing the query for your question: \"".data ++
  question ++
  "\"\n\nError: ".data ++ err ++
  "\n\nQuery attempted: ".data ++ query ++
  "\n\nPlease try rephrasing your question or check if the requested data exists in the database.\n".data

/-- Method `SQLAgent.format_response` (lines 602-686): the failure branch is embedded
exactly; the success branches (no-data message, LLM summarization, CSV link)
are the `formatSuccess` oracle. -/
def formatResponse (env : SQLAgentEnv) (question : Str) (qr : QueryResult)
    (query : Str) : Str :=
  if qr.success then env.formatSuccess question qr query
  else formatFailureMsg question (optStr qr.error) query

/-- The execution/correction loop of `process_question` (lines 724-745),
recursing on the remaining correction budget
(`retriesLeft = max_retries - retry_count`).  Returns the response text, the
number of `execute_query` calls made, the last attempted query, and the last
execution result.  A failing execution with budget left asks
`correct_query_errors` for a fix and retries only when the fix differs from
the current query; otherwise it reports the last failure. -/
def executeQueryWithRetry (env : SQLAgentEnv) (question : Str)
    (tableInfos : List TableInfo) (query : Str) (retriesLeft : Nat) :
    Str × Nat × Str × QueryResult :=
  let result := env.exec query
  if result.success then
    (formatResponse env question result query, 1, query, result)
  else
    match retriesLeft with
    | 0 => (formatResponse env question result query, 1, query, result)
    | n + 1 =>
      let corrected := env.correctQueryErrors query (optStr result.error) tableInfos
      if corrected ≠ query then
        let (resp, c, lastQ, lastR) :=
          executeQueryWithRetry env question tableInfos corrected n
        (resp, c + 1, lastQ, lastR)
      else
        (formatResponse env question result query, 1, query, result)

/-- Method `SQLAgent.process_question` (lines 688-749): steps 1-5 (table discovery,
relevance, DDL collection, SQL generation, validation) followed by the retry
loop.  Returns the response and the updated schema cache. -/
def processQuestion (env : SQLAgentEnv) (s : SchemaState) (question : Str)
    (maxRetries : Nat) : Str × SchemaState :=
  let availableTables := getAvailableTables env.warehouse
  if availableTables.isEmpty then
    ("I couldn\x27t find any tables in the database. Please check the database connection and permissions.".data, s)
  else
    let relevantTables := env.determineRelevantTables question availableTables
    if relevantTables.isEmpty then
      ("I couldn\x27t find any tables relevant to your question: \x27".data ++ question ++
        "\x27. Available tables: ".data ++
        List.intercalate ", ".data (availableTables.take 10), s)
    else
      let step3 := relevantTables.foldl
        (fun (acc : List TableInfo × SchemaState) tn =>
          let r := getTableDDL env.db acc.2 tn
          (if r.1.columns ≠ [] then acc.1 ++ [r.1] else acc.1, r.2.1))
        ([], s)
      let tableInfos := step3.1
      let s := step3.2
      if tableInfos.isEmpty then
        ("I couldn\x27t retrieve schema information for the relevant tables: ".data ++
          List.intercalate ", ".data relevantTables, s)
      else
        let query := env.generateSQL question tableInfos
        if query.isEmpty then
          ("I couldn\x27t generate a SQL query for your question. Please try rephrasing it.".data, s)
        else
          let v := env.validateQuery query tableInfos
          let query := if ¬ v.1 then v.2.2 else query
          ((executeQueryWithRetry env question tableInfos query maxRetries).1, s)

/-! ## Data model of `OpenArena_ChatbotChain.py` -/

/-- Enum `QueryType` (lines 17-21). -/
inductive QueryType where
  | sql
  | rag
  | ambiguous
deriving DecidableEq, Repr

/-- The `.value` of a `QueryType` member. -/
def QueryType.value : QueryType → Str
  | .sql => "sql".data
  | .rag => "rag".data
  | .ambiguous => "ambiguous".data

/-- Class `ClassificationResult` (lines 23-29). -/
structure ClassificationResult where
  queryType : QueryType
  confidence : ℚ
  reasoning : Str
  suggestedRoute : Str
deriving DecidableEq, Repr

/-- The triple returned by `QueryClassifier._llm_classification`. -/
structure LLMVerdict where
  classification : QueryType
  confidence : ℚ
  reasoning : Str
deriving DecidableEq, Repr

/-- The completion service behind `_llm_classification`:
`generateResponse n` is the outcome (reply text, or exception text) of the
nth classification call made on this classifier, and `parseFloat` models
Python `float(...)` on the stripped `CONFIDENCE:` payload (`none` models the
`ValueError` on an unparseable literal). -/
structure LLMEnv where
  generateResponse : Nat → Except Str Str
  parseFloat : Str → Option ℚ

/-- Tag of the first reply line. -/
def clsTag : Str := "CLASSIFICATION:".data

/-- Tag of the second reply line. -/
def confTag : Str := "CONFIDENCE:".data

/-- Tag of the third reply line. -/
def reasonTag : Str := "REASONING:".data

/-- One step of the reply parse loop of `_llm_classification`
(lines 281-296): strip the line, then update whichever of the three fields
the line addresses.  A `CLASSIFICATION:` payload naming neither SQL nor RAG
leaves the classification unchanged; an unparseable `CONFIDENCE:` payload
resets the confidence to 0.5; a parseable one is clamped into [0, 1]. -/
def llmParseLine (env : LLMEnv) (st : LLMVerdict) (line : Str) : LLMVerdict :=
  let l := pyStrip line
  if pyStartsWith l clsTag then
    let t := pyUpper (pyStrip (pyReplace l clsTag []))
    if pyContains t "SQL".data then { st with classification := .sql }
    else if pyContains t "RAG".data then { st with classification := .rag }
    else st
  else if pyStartsWith l confTag then
    match env.parseFloat (pyStrip (pyReplace l confTag [])) with
    | some c => { st with confidence := max 0 (min 1 c) }
    | none => { st with confidence := 1/2 }
  else if pyStartsWith l reasonTag then
    { st with reasoning := pyStrip (pyReplace l reasonTag []) }
  else st

/-- The defaults installed before the parse loop (lines 277-279). -/
def llmDefaultVerdict : LLMVerdict :=
  { classification := .ambiguous, confidence := 1/2,
    reasoning := "Could not parse LLM response".data }

/-- Method `QueryClassifier._llm_classification` (lines 216-302): ask the completion
service, parse the three-line reply with defaults for missing or malformed
fields; a completion-service exception is caught and converted into the
ambiguous verdict carrying the exception text. -/
def llmClassification (env : LLMEnv) (callIdx : Nat) : LLMVerdict :=
  match env.generateResponse callIdx with
  | .error e =>
    { classification := .ambiguous, confidence := 1/2,
      reasoning := "LLM classification error: ".data ++ e }
  | .ok response =>
    (pySplit '\n' (pyStrip response)).foldl (llmParseLine env) llmDefaultVerdict

/-- Class `QueryClassifier` state, with the three deterministic signal analyses as
functions of the question.  `keywordAnalysis` is `_keyword_analysis` (sql
score, rag score), `dbContextAnalysis` is `_database_context_analysis`,
`patternAnalysis` is `_pattern_analysis` (sql score, rag score): each is a
pure function of the question text and the schema snapshot taken at
construction, so they return identical values on the repeated calls made by
`route_query`.  `fmtFloat` models the Python `:.2f` format specifier used
only inside reasoning strings. -/
structure Classifier where
  keywordAnalysis : Str → ℚ × ℚ
  dbContextAnalysis : Str → ℚ
  patternAnalysis : Str → ℚ × ℚ
  llmEnv : LLMEnv
  fmtFloat : ℚ → Str

/-- Name strings used by the router. -/
def sqlAgentName : Str := "SQL Database Agent".data

/-- The knowledge capability name. -/
def ragAgentName : Str := "RAG Knowledge Agent".data

/-- The suggested route of an ambiguous classification. -/
def manualReview : Str := "Manual Review Required".data

/-- The score combination of `classify_query` (lines 320-342), also repeated
verbatim in the ambiguous branch of `route_query` (lines 468-485): equal
weights 0.25, the context signal entering the knowledge side as
`1 - context`, and the LLM side contributing `confidence` only when its
verdict names that side. -/
def finalScores (c : Classifier) (query : Str) (llmC : QueryType)
    (llmConf : ℚ) : ℚ × ℚ :=
  let sqlK := (c.keywordAnalysis query).1
  let ragK := (c.keywordAnalysis query).2
  let ctx := c.dbContextAnalysis query
  let sqlP := (c.patternAnalysis query).1
  let ragP := (c.patternAnalysis query).2
  let wKeyword : ℚ := 1/4
  let wContext : ℚ := 1/4
  let wPattern : ℚ := 1/4
  let wLlm : ℚ := 1/4
  (wKeyword * sqlK + wContext * ctx + wPattern * sqlP +
    wLlm * (if llmC = .sql then 1 else 0) * llmConf,
   wKeyword * ragK + wContext * (1 - ctx) + wPattern * ragP +
    wLlm * (if llmC = .rag then 1 else 0) * llmConf)

/-- Method `QueryClassifier.classify_query` (lines 304-374), threading the number of
completion-service calls made so far (each run makes exactly one).  Scores
closer than 0.1 give the ambiguous label with confidence 0.5; otherwise the
larger side wins with its score capped at 0.95. -/
def classifyQuery (c : Classifier) (query : Str) (llmCalls : Nat) :
    ClassificationResult × Nat :=
  let v := llmClassification c.llmEnv llmCalls
  let sc := finalScores c query v.classification v.confidence
  let fSql := sc.1
  let fRag := sc.2
  let res : ClassificationResult :=
    if |fSql - fRag| < 1/10 then
      { queryType := .ambiguous, confidence := 1/2,
        reasoning := "Ambiguous query. SQL score: ".data ++ c.fmtFloat fSql ++
          ", RAG score: ".data ++ c.fmtFloat fRag,
        suggestedRoute := manualReview }
    else if fSql > fRag then
      { queryType := .sql, confidence := min fSql (19/20),
        reasoning := "SQL classification. Scores - SQL: ".data ++
          c.fmtFloat fSql ++ ", RAG: ".data ++ c.fmtFloat fRag ++ ". ".data ++
          v.reasoning,
        suggestedRoute := sqlAgentName }
    else
      { queryType := .rag, confidence := min fRag (19/20),
        reasoning := "RAG classification. Scores - SQL: ".data ++
          c.fmtFloat fSql ++ ", RAG: ".data ++ c.fmtFloat fRag ++ ". ".data ++
          v.reasoning,
        suggestedRoute := ragAgentName }
  (res, llmCalls + 1)

/-! ## `RouterAgent.route_query` (OpenArena_ChatbotChain.py, lines 377-555) -/

/-- Environment of `RouterAgent`: the classifier, the two capabilities
(`sql_agent.ask` and `process_regular_query`, each allowed to raise), the
configured confidence threshold, and oracles for the wall clock
(`clock 0` and `clock 1` are the two `time.time()` readings), the
`datetime.now().isoformat()` stamp, and the `:.1%` format specifier. -/
structure RouterEnv where
  classifier : Classifier
  sqlAsk : Str → Except Str Str
  processRegularQuery : Str → Except Str Str
  confidenceThreshold : ℚ
  timestamp : Str
  clock : Nat → ℚ
  fmtPct : ℚ → Str

/-- The `classification` entry of the result dict (lines 431-436);
`ctype` is the dict key `type`. -/
structure ClassificationDict where
  ctype : Str
  confidence : ℚ
  reasoning : Str
  suggestedRoute : Str
deriving DecidableEq, Repr

/-- The result dict of `route_query` (lines 389-398). -/
structure RouteResult where
  query : Str
  timestamp : Str
  classification : Option ClassificationDict
  response : Option Str
  agentUsed : Option Str
  executionTime : ℚ
  success : Bool
  error : Option Str

/-- Counters of external calls made while routing: completion-service
classification calls, SQL-capability dispatches, knowledge-capability
dispatches. -/
structure Stats where
  llmCalls : Nat
  sqlCalls : Nat
  ragCalls : Nat
deriving DecidableEq, Repr

/-- Outcome of a Python `try` block: a normal value, or an exception text
together with the state mutated so far. -/
inductive Tried (α : Type) where
  | ok (a : α)
  | exn (msg : Str) (a : α)

/-- The value carried by a `Tried` (the state as left behind either way). -/
def Tried.val {α : Type} : Tried α → α
  | .ok a => a
  | .exn _ a => a

/-- The result dict as initialized at the top of `route_query`. -/
def initRouteResult (env : RouterEnv) (query : Str) : RouteResult :=
  { query := query, timestamp := env.timestamp, classification := none,
    response := none, agentUsed := none, executionTime := 0,
    success := false, error := none }

/-- Python truthiness of the `force_route` variable: `None` and the empty
string are falsy. -/
def pyTruthy : Option Str → Bool
  | some s => ¬ s.isEmpty
  | none => false

/-- Prefix checked on line 404. -/
def forceSqlPrefix : Str := "force sql ".data

/-- Prefix checked on line 407. -/
def forceRagPrefix : Str := "force rag ".data

/-- Lines 403-409: a case-insensitive `force sql `/`force rag ` prefix sets
`force_route` and strips the first ten characters of the question (then
`.strip()`). -/
def parseForcePrefix (query : Str) (forceRoute : Option Str) :
    Option Str × Str :=
  if pyStartsWith (pyLower query) forceSqlPrefix then
    (some "sql".data, pyStrip (query.drop 10))
  else if pyStartsWith (pyLower query) forceRagPrefix then
    (some "rag".data, pyStrip (query.drop 10))
  else (forceRoute, query)

/-- Lines 412-426: the classification record built for a truthy
`force_route`; `none` when it names neither capability, in which case the
local `classification_result` is never assigned. -/
def forcedClassification (force : Str) : Option ClassificationResult :=
  if pyLower force = "sql".data then
    some { queryType := .sql, confidence := 1,
           reasoning := "Forced SQL routing".data,
           suggestedRoute := sqlAgentName }
  else if pyLower force = "rag".data then
    some { queryType := .rag, confidence := 1,
           reasoning := "Forced RAG routing".data,
           suggestedRoute := ragAgentName }
  else none

/-- The message of the `UnboundLocalError` raised on line 431 when
`classification_result` was never assigned. -/
def unboundLocalMsg : Str :=
  "cannot access local variable \x27classification_result\x27 where it is not associated with a value".data

/-- Method `RouterAgent._request_clarification` (lines 511-536). -/
def requestClarification (env : RouterEnv) (query : Str)
    (cr : ClassificationResult) : Str :=
  "\nI\x27m not entirely sure how to best answer your question: \"".data ++ query ++
  "\"\n\nBased on my analysis, I think you might be looking for:\n- ".data ++
  cr.suggestedRoute ++ " (confidence: ".data ++ env.fmtPct cr.confidence ++
  ")\n\nTo help me provide the best answer, could you clarify:\n\nIf you want specific data from our database, try rephrasing like:\n• \"Show me [specific data] from [table/category]\"\n• \"How many [items] are there?\"\n• \"List the top [number] [items] by [criteria]\"\n\nIf you want explanations or general information, try:\n• \"Explain what [concept] means\"\n• \"What is the definition of [term]?\"\n• \"How does [process] work?\"\n\nOr you can specify your preference:\n• Add \"from database\" to query our data\n• Add \"explain\" to get conceptual information\n\nClassification reasoning: ".data ++
  cr.reasoning ++ "\n".data

/-- The best-guess disclaimer appended in the ambiguous branch
(line 494). -/
def ambiguousDisclaimer (agentUsed : Str) : Str :=
  "\n\nThis query was ambiguous. I chose the route with the highest confidence (".data ++
  agentUsed ++
  ").\nIf this is not what you expected, please clarify your intent or provide more details.\n".data

/-- The name recorded when the router answers with a clarification. -/
def clarifierName : Str := "Router (Clarification)".data

/-- The user-safe apology installed by the top-level handler (line 503). -/
def apologyMsg : Str :=
  "I encountered an error while processing your query. Please try again or rephrase your question.".data

/-- The `error` field prefix installed by the handler (line 500). -/
def routingErrorPrefix : Str := "Error routing query: ".data

/-- The dict stored under the `classification` key (lines 431-436). -/
def summarizeClassification (cr : ClassificationResult) : ClassificationDict :=
  { ctype := cr.queryType.value, confidence := cr.confidence,
    reasoning := cr.reasoning, suggestedRoute := cr.suggestedRoute }

/-- The capability-invocation block repeated on lines 441-444, 452-455,
487-489 and 491-492 of `route_query`: call the capability on the query,
store its (post-processed) answer, the agent name and `success=True`; an
exception from the capability propagates with the counters already bumped
(the call was made). -/
def capabilityDispatch (call : Str → Except Str Str) (agent : Str)
    (post : Str → Str) (r : RouteResult) (query : Str) (bump : Stats) :
    Tried (RouteResult × Stats) :=
  match call query with
  | .ok resp =>
    .ok ({ r with
           response := some (post resp),
           agentUsed := some agent,
           success := true }, bump)
  | .error e => .exn e (r, bump)

/-- The `try` block of `route_query` (lines 402-497): prefix parsing, forced
or computed classification, threshold-gated dispatch, and the ambiguous
branch that recomputes all four signals (with a fresh completion-service
call) and dispatches on the recomputed totals, appending the best-guess
disclaimer.  Returns `Tried`: `.exn` carries the exception text plus the
result dict and counters as mutated before the raise. -/
def routeTry (env : RouterEnv) (query0 : Str) (forceRoute : Option Str)
    (st : Stats) : Tried (RouteResult × Stats) :=
  let r := initRouteResult env query0
  let parsed := parseForcePrefix query0 forceRoute
  let force := parsed.1
  let query := parsed.2
  let step :=
    if pyTruthy force then (forcedClassification (force.getD []), st)
    else
      let c := classifyQuery env.classifier query st.llmCalls
      (some c.1, { st with llmCalls := c.2 })
  match step.1, step.2 with
  | none, st1 => .exn unboundLocalMsg (r, st1)
  | some cr, st1 =>
    let r := { r with classification := some (summarizeClassification cr) }
    match cr.queryType with
    | .sql =>
      if cr.confidence ≥ env.confidenceThreshold ∨ pyTruthy force then
        capabilityDispatch env.sqlAsk sqlAgentName (fun s => s) r query
          { st1 with sqlCalls := st1.sqlCalls + 1 }
      else
        .ok ({ r with
               response := some (requestClarification env query cr),
               agentUsed := some clarifierName,
               success := true }, st1)
    | .rag =>
      if cr.confidence ≥ max (2/5) (env.confidenceThreshold * (3/5)) ∨
          pyTruthy force then
        capabilityDispatch env.processRegularQuery ragAgentName (fun s => s) r
          query { st1 with ragCalls := st1.ragCalls + 1 }
      else
        .ok ({ r with
               response := some (requestClarification env query cr),
               agentUsed := some clarifierName,
               success := true }, st1)
    | .ambiguous =>
      let v := llmClassification env.classifier.llmEnv st1.llmCalls
      let st2 := { st1 with llmCalls := st1.llmCalls + 1 }
      let sc := finalScores env.classifier query v.classification v.confidence
      if sc.1 > sc.2 then
        capabilityDispatch env.sqlAsk sqlAgentName
          (fun s => s ++ ambiguousDisclaimer sqlAgentName) r query
          { st2 with sqlCalls := st2.sqlCalls + 1 }
      else
        capabilityDispatch env.processRegularQuery ragAgentName
          (fun s => s ++ ambiguousDisclaimer ragAgentName) r query
          { st2 with ragCalls := st2.ragCalls + 1 }

/-- Method `RouterAgent.route_query` (lines 388-509): run the `try` block; the
`except` converts any exception into `success=False` with the apology and the
prefixed error text; the `finally` records the wall-clock span between the
two `time.time()` readings on every path. -/
def routeQuery (env : RouterEnv) (query : Str) (forceRoute : Option Str)
    (st : Stats) : RouteResult × Stats :=
  let elapsed := env.clock 1 - env.clock 0
  match routeTry env query forceRoute st with
  | .ok (r, st1) => ({ r with executionTime := elapsed }, st1)
  | .exn e (r, st1) =>
    ({ r with
       error := some (routingErrorPrefix ++ e),
       response := some apologyMsg,
       success := false,
       executionTime := elapsed }, st1)

/-! ## Concrete environments used by witnesses and counterexamples -/

/-- Inert formatter (format specifiers never influence control flow). -/
def zeroFmt : ℚ → Str := fun _ => []

/-- A `float(...)` oracle on which every literal fails to parse. -/
def noneFloat : Str → Option ℚ := fun _ => none

/-- A `float(...)` oracle parsing exactly the literal `0.2`. -/
def flipFloat : Str → Option ℚ :=
  fun s => if s = "0.2".data then some (1/5) else none

/-- Completion service that always raises. -/
def llmErrEnv : LLMEnv :=
  { generateResponse := fun _ => .error "bad gateway".data,
    parseFloat := noneFloat }

/-- Completion service that always answers with an empty (unparseable)
reply. -/
def llmBlankEnv : LLMEnv :=
  { generateResponse := fun _ => .ok [], parseFloat := noneFloat }

/-- Completion service whose first classification call answers SQL with
confidence 0.2 and whose later calls answer RAG with confidence 0.2. -/
def llmFlipEnv : LLMEnv :=
  { generateResponse := fun n =>
      if n = 0 then .ok "CLASSIFICATION: SQL\nCONFIDENCE: 0.2".data
      else .ok "CLASSIFICATION: RAG\nCONFIDENCE: 0.2".data,
    parseFloat := flipFloat }

/-- Classifier whose deterministic signals all point at structured data
(totals 3/4 versus 0). -/
def strongSqlClassifier : Classifier :=
  { keywordAnalysis := fun _ => (1, 0),
    dbContextAnalysis := fun _ => 1,
    patternAnalysis := fun _ => (1, 0),
    llmEnv := llmErrEnv,
    fmtFloat := zeroFmt }

/-- Classifier with perfectly balanced signals (totals 1/8 versus 1/8):
every question classifies as ambiguous with exactly equal totals. -/
def tieClassifier : Classifier :=
  { keywordAnalysis := fun _ => (0, 0),
    dbContextAnalysis := fun _ => 1/2,
    patternAnalysis := fun _ => (0, 0),
    llmEnv := llmBlankEnv,
    fmtFloat := zeroFmt }

/-- Balanced signals with the SQL-then-RAG completion service: the first
classification leans SQL (0.175 versus 0.125, ambiguous), the recomputation
leans RAG. -/
def flipClassifier : Classifier :=
  { keywordAnalysis := fun _ => (0, 0),
    dbContextAnalysis := fun _ => 1/2,
    patternAnalysis := fun _ => (0, 0),
    llmEnv := llmFlipEnv,
    fmtFloat := zeroFmt }

/-- SQL capability answering a fixed text. -/
def okSql : Str → Except Str Str := fun _ => .ok "SQL-ANSWER".data

/-- Knowledge capability answering a fixed text. -/
def okRag : Str → Except Str Str := fun _ => .ok "RAG-ANSWER".data

/-- Router environment over a given classifier and capabilities, with the
default threshold 0.7 and a unit clock span. -/
def mkRouterEnv (c : Classifier) (sql rag : Str → Except Str Str) :
    RouterEnv :=
  { classifier := c, sqlAsk := sql, processRegularQuery := rag,
    confidenceThreshold := 7/10, timestamp := [],
    clock := fun n => n, fmtPct := zeroFmt }

/-- Router with strong structured signals and healthy capabilities. -/
def strongSqlRouter : RouterEnv := mkRouterEnv strongSqlClassifier okSql okRag

/-- Router with perfectly balanced signals. -/
def tieRouter : RouterEnv := mkRouterEnv tieClassifier okSql okRag

/-- Router whose two classification calls return different verdicts. -/
def flipRouter : RouterEnv := mkRouterEnv flipClassifier okSql okRag

/-- Router whose SQL capability raises. -/
def throwSqlRouter : RouterEnv :=
  mkRouterEnv strongSqlClassifier (fun _ => .error "capability down".data) okRag

/-- Warehouse holding a single empty `DIA_TRACKING_DATA_OT` table in a schema
other than the current one. -/
def cexWarehouse : WarehouseState :=
  { currentSchema := "PUBLIC".data,
    tables := [⟨"DIA_TRACKING_DATA_OT".data, "OTHER".data, some 0⟩],
    metadataError := none }

/-- A small mixed warehouse. -/
def sampleWarehouse : WarehouseState :=
  { currentSchema := "PUBLIC".data,
    tables := [⟨"ONETRUST_B".data, "PUBLIC".data, some 5⟩,
               ⟨"ONETRUST_A".data, "PUBLIC".data, some 3⟩,
               ⟨"ONETRUST_EMPTY".data, "PUBLIC".data, some 0⟩,
               ⟨"XTABLE".data, "PUBLIC".data, some 9⟩],
    metadataError := none }

/-- Warehouse on which every per-table DDL query fails. -/
def failDB : DBEnv :=
  ⟨fun _ => { success := false, data := none,
              error := some "metadata timeout".data, rowCount := none }⟩

/-- Warehouse answering all three DDL queries for any table. -/
def okDB : DBEnv :=
  ⟨fun q =>
    match q with
    | .columns _ =>
      { success := true,
        data := some ⟨["COLUMN_NAME".data], [[Cell.str "C1".data]]⟩,
        error := none, rowCount := some 1 }
    | .sample _ =>
      { success := true, data := some ⟨["C1".data], [[Cell.int 4]]⟩,
        error := none, rowCount := some 1 }
    | .countRows _ =>
      { success := true, data := some ⟨[rowCountCol], [[Cell.int 7]]⟩,
        error := none, rowCount := some 1 }⟩

/-- SQL-agent environment whose generated-query executions always fail and
whose correction service always returns the query unchanged. -/
def stuckSqlAgentEnv : SQLAgentEnv :=
  { warehouse := sampleWarehouse, db := okDB,
    exec := fun _ =>
      { success := false, data := none,
        error := some "SQL compilation error".data, rowCount := none },
    determineRelevantTables := fun _ ts => ts,
    generateSQL := fun _ _ => "SELECT 1".data,
    validateQuery := fun q _ => (true, "Query is valid".data, q),
    correctQueryErrors := fun q _ _ => q,
    formatSuccess := fun _ _ _ => "summary".data }

/-! ## Helper lemmas -/

theorem lookupCache_cons_self (n : Str) (ti : TableInfo)
    (rest : List (Str × TableInfo)) :
    lookupCache ((n, ti) :: rest) n = some ti := by
  simp [lookupCache, List.find?_cons]

theorem sqlAnd_eq_tt (x y : SqlBool) :
    sqlAnd x y = .tt ↔ x = .tt ∧ y = .tt := by
  cases x <;> cases y <;> simp [sqlAnd]

theorem sqlOr_eq_tt (x y : SqlBool) :
    sqlOr x y = .tt ↔ x = .tt ∨ y = .tt := by
  cases x <;> cases y <;> simp [sqlOr]

theorem sqlOf_eq_tt (b : Bool) : sqlOf b = .tt ↔ b = true := by
  cases b <;> simp [sqlOf]

theorem tablesWhereCond_eq_tt (cur : Str) (t : TableMeta) :
    tablesWhereCond cur t = .tt ↔
      ((t.tableSchema = cur ∧ t.rowCount ≠ none ∧ t.rowCount ≠ some 0 ∧
        pyStartsWith t.name "ONETRUST".data = true) ∨
       t.name = "DIA_TRACKING_DATA_OT".data) := by
  rcases t with ⟨n, sch, rc⟩
  simp only [tablesWhereCond, sqlOr_eq_tt, sqlAnd_eq_tt, sqlOf_eq_tt]
  rcases rc with _ | v
  · simp [sqlIsNotNull, sqlNeq, sqlOf]
  · by_cases hv : v = 0
    · subst hv
      simp [sqlIsNotNull, sqlNeq, sqlOf]
    · simp [sqlIsNotNull, sqlNeq, sqlOf, hv]

theorem occursIn_formatFailureMsg_err (question err query : Str) :
    occursIn err (formatFailureMsg question err query) := by
  refine ⟨"\nI apologize, but I encountered an error while executing the query for your question: \"".data ++
    question ++ "\"\n\nError: ".data,
    "\n\nQuery attempted: ".data ++ query ++
    "\n\nPlease try rephrasing your question or check if the requested data exists in the database.\n".data,
    ?_⟩
  simp [formatFailureMsg]

theorem occursIn_formatFailureMsg_query (question err query : Str) :
    occursIn query (formatFailureMsg question err query) := by
  refine ⟨"\nI apologize, but I encountered an error while executing the query for your question: \"".data ++
    question ++ "\"\n\nError: ".data ++ err ++ "\n\nQuery attempted: ".data,
    "\n\nPlease try rephrasing your question or check if the requested data exists in the database.\n".data,
    ?_⟩
  simp [formatFailureMsg]

/-! ## Claim C6 -/

/-- Claim C6 (counterexample to the claim as stated): on a warehouse where
the columns metadata query for table `T` fails, the first `get_table_ddl`
call does not cache anything, so the second consecutive call issues one
warehouse query again — not zero as the claim asserts. -/
theorem getTableDDL_second_call_queries_again :
    (getTableDDL failDB (getTableDDL failDB ⟨[]⟩ "T".data).2.1 "T".data).2.2 = 1 ∧
    ¬ (getTableDDL failDB (getTableDDL failDB ⟨[]⟩ "T".data).2.1 "T".data).2.2 = 0 := by
  decide

/-- Claim C6 (amended): two consecutive `get_table_ddl` calls for the same
table on the same agent instance with no intervening warehouse change return
equal `TableInfo` values and leave the cache unchanged; and whenever the
first call left the table cached (in particular whenever its fetch
succeeded), the second call issues no warehouse query.  When the first call
failed, nothing was cached and the second call re-issues the same number of
queries. -/
theorem getTableDDL_idempotent (env : DBEnv) (s : SchemaState) (name : Str) :
    (getTableDDL env (getTableDDL env s name).2.1 name).1 =
      (getTableDDL env s name).1 ∧
    (getTableDDL env (getTableDDL env s name).2.1 name).2.1 =
      (getTableDDL env s name).2.1 ∧
    (getTableDDL env (getTableDDL env s name).2.1 name).2.2 =
      (if (lookupCache (getTableDDL env s name).2.1.schemaCache name).isSome
       then 0 else (getTableDDL env s name).2.2) := by
  rcases hc : lookupCache s.schemaCache name with _ | ti
  · by_cases hb : (fetchTableDDL env name).2.1 = true
    · simp [getTableDDL, hc, hb, lookupCache_cons_self]
    · simp [getTableDDL, hc, hb]
  · simp [getTableDDL, hc]

/-! ## Claim C7 -/

/-- Claim C7 (counterexample to the claim as stated): because `AND` binds
tighter than `OR` in the `WHERE` clause of the query, an empty
`DIA_TRACKING_DATA_OT` table in a schema other than the current one is
returned by `get_available_tables`, while the filter of the spec (non-empty,
current schema, allow-list) returns nothing. -/
theorem getAvailableTables_ne_spec :
    getAvailableTables cexWarehouse = ["DIA_TRACKING_DATA_OT".data] ∧
    specAvailableTables cexWarehouse = [] ∧
    ¬ getAvailableTables cexWarehouse = specAvailableTables cexWarehouse := by
  decide

/-- Claim C7 (amended): when the metadata query succeeds,
`get_available_tables` returns, in sorted order, exactly the names of the
tables satisfying the `WHERE` clause under SQL precedence — (current schema
AND non-null, non-zero row count AND `ONETRUST` prefix) OR the name is
exactly `DIA_TRACKING_DATA_OT`, the latter irrespective of schema or
emptiness; when the metadata query fails (and when nothing matches) it
returns the empty list without raising. -/
theorem getAvailableTables_characterization (w : WarehouseState) :
    (w.metadataError = none →
      getAvailableTables w =
        sortStrs ((w.tables.filter (fun t =>
          (t.tableSchema = w.currentSchema ∧ t.rowCount ≠ none ∧
            t.rowCount ≠ some 0 ∧
            pyStartsWith t.name "ONETRUST".data = true) ∨
          t.name = "DIA_TRACKING_DATA_OT".data)).map TableMeta.name)) ∧
    (w.metadataError ≠ none → getAvailableTables w = []) := by
  constructor
  · intro h
    have hfilter : w.tables.filter (fun t => tablesWhereCond w.currentSchema t = .tt) =
        w.tables.filter (fun t =>
          (t.tableSchema = w.currentSchema ∧ t.rowCount ≠ none ∧
            t.rowCount ≠ some 0 ∧
            pyStartsWith t.name "ONETRUST".data = true) ∨
          t.name = "DIA_TRACKING_DATA_OT".data) := by
      apply List.filter_congr
      intro t _
      exact decide_eq_decide.mpr (tablesWhereCond_eq_tt w.currentSchema t)
    have key : getAvailableTables w =
        sortStrs ((w.tables.filter (fun t =>
          tablesWhereCond w.currentSchema t = .tt)).map TableMeta.name) := by
      simp only [getAvailableTables, evalTablesQuery, h]
      generalize (sortStrs ((w.tables.filter (fun t =>
        tablesWhereCond w.currentSchema t = .tt)).map TableMeta.name)) = names
      rcases names with _ | ⟨n, rest⟩
      · simp [colValues, tableNameCol]
      · simp only [List.isEmpty_cons, if_false, Bool.false_eq_true]
        have hidx : List.indexOf tableNameCol [tableNameCol] = 0 := by decide
        simp only [colValues, hidx, List.map_map, Function.comp_def,
          List.getElem?_cons_zero, cellStr]
        have hcomp : (cellStr ∘ fun x : Str => Cell.str x) = fun x : Str => x := by
          funext x
          simp [cellStr]
        simp [cellStr, hcomp]
    rw [key, hfilter]
  · intro h
    rcases he : w.metadataError with _ | e
    · exact absurd he h
    · simp [getAvailableTables, evalTablesQuery, he]

/-- Claim C7 witness: the amended characterization evaluated on a concrete
mixed warehouse with a healthy metadata query. -/
theorem getAvailableTables_characterization_witness :
    sampleWarehouse.metadataError = none ∧
    getAvailableTables sampleWarehouse =
      sortStrs ((sampleWarehouse.tables.filter (fun t =>
        (t.tableSchema = sampleWarehouse.currentSchema ∧ t.rowCount ≠ none ∧
          t.rowCount ≠ some 0 ∧
          pyStartsWith t.name "ONETRUST".data = true) ∨
        t.name = "DIA_TRACKING_DATA_OT".data)).map TableMeta.name) :=
  ⟨rfl, (getAvailableTables_characterization sampleWarehouse).1 rfl⟩

/-! ## Claim C4 -/

/-- Claim C4: the execution stage of `process_question` performs at most
`max_retries + 1` query executions (so at most `max_retries` correction
attempts; with `max_retries = 2`, at most 3 executions); it stops after a
single execution when the correction service returns the failing query
unchanged; and on final failure the returned text is the failure message
built from the last attempted query — containing the SQL text of that query and
the error text — not from an earlier attempt. -/
theorem executeQueryWithRetry_budget (env : SQLAgentEnv) (question : Str)
    (tableInfos : List TableInfo) (query : Str) (maxRetries : Nat) :
    (executeQueryWithRetry env question tableInfos query maxRetries).2.1 ≤
      maxRetries + 1 ∧
    (executeQueryWithRetry env question tableInfos query maxRetries).2.2.2 =
      env.exec (executeQueryWithRetry env question tableInfos query maxRetries).2.2.1 ∧
    (env.correctQueryErrors query (optStr (env.exec query).error) tableInfos =
        query →
      (executeQueryWithRetry env question tableInfos query maxRetries).2.1 = 1) ∧
    ((executeQueryWithRetry env question tableInfos query maxRetries).2.2.2.success = false →
      (executeQueryWithRetry env question tableInfos query maxRetries).1 =
        formatFailureMsg question
          (optStr (executeQueryWithRetry env question tableInfos query maxRetries).2.2.2.error)
          (executeQueryWithRetry env question tableInfos query maxRetries).2.2.1 ∧
      occursIn
        (optStr (executeQueryWithRetry env question tableInfos query maxRetries).2.2.2.error)
        (executeQueryWithRetry env question tableInfos query maxRetries).1 ∧
      occursIn (executeQueryWithRetry env question tableInfos query maxRetries).2.2.1
        (executeQueryWithRetry env question tableInfos query maxRetries).1) := by
  induction maxRetries generalizing query with
  | zero =>
    by_cases hs : (env.exec query).success = true
    · simp [executeQueryWithRetry, hs, formatResponse]
    · simp [executeQueryWithRetry, hs, formatResponse,
        occursIn_formatFailureMsg_err, occursIn_formatFailureMsg_query]
  | succ n ih =>
    by_cases hs : (env.exec query).success = true
    · simp [executeQueryWithRetry, hs, formatResponse]
    · by_cases hcq : env.correctQueryErrors query (optStr (env.exec query).error)
          tableInfos = query
      · simp [executeQueryWithRetry, hs, hcq, formatResponse,
          occursIn_formatFailureMsg_err, occursIn_formatFailureMsg_query]
      · have h := ih (env.correctQueryErrors query (optStr (env.exec query).error)
          tableInfos)
        have h1 := h.1
        simp only [executeQueryWithRetry, hs, hcq, ne_eq, not_false_eq_true,
          if_true, if_false, Bool.false_eq_true, ite_false]
        refine ⟨Nat.add_le_add_right h1 1, h.2.1, ?_, h.2.2.2⟩
        intro hid
        exact hid.elim

/-- Claim C4 witness: on an environment whose executions always fail and
whose correction service returns queries unchanged, the loop with
`max_retries = 2` stops after exactly one execution (within the budget of 3)
and the response contains the error text and the last attempted SQL. -/
theorem executeQueryWithRetry_budget_witness :
    (stuckSqlAgentEnv.correctQueryErrors "SELECT 1".data
        (optStr (stuckSqlAgentEnv.exec "SELECT 1".data).error) [] =
      "SELECT 1".data) ∧
    (executeQueryWithRetry stuckSqlAgentEnv "q".data [] "SELECT 1".data 2).2.1 = 1 ∧
    (executeQueryWithRetry stuckSqlAgentEnv "q".data [] "SELECT 1".data 2).2.1 ≤ 3 ∧
    occursIn
      (optStr (executeQueryWithRetry stuckSqlAgentEnv "q".data [] "SELECT 1".data 2).2.2.2.error)
      (executeQueryWithRetry stuckSqlAgentEnv "q".data [] "SELECT 1".data 2).1 ∧
    occursIn (executeQueryWithRetry stuckSqlAgentEnv "q".data [] "SELECT 1".data 2).2.2.1
      (executeQueryWithRetry stuckSqlAgentEnv "q".data [] "SELECT 1".data 2).1 := by
  have h := executeQueryWithRetry_budget stuckSqlAgentEnv "q".data [] "SELECT 1".data 2
  exact ⟨rfl, h.2.2.1 rfl, h.1, (h.2.2.2 (by decide)).2.1, (h.2.2.2 (by decide)).2.2⟩

/-! ## Claim C8 -/

theorem foldl_inv {α β : Type} (P : α → Prop) (f : α → β → α) :
    ∀ (l : List β) (a : α), P a → (∀ x b, b ∈ l → P x → P (f x b)) →
      P (l.foldl f a) := by
  intro l
  induction l with
  | nil => intro a h0 _; exact h0
  | cons b t ihl =>
    intro a h0 hstep
    exact ihl (f a b) (hstep a b (by simp) h0)
      (fun x c hc hx => hstep x c (by simp [hc]) hx)

theorem llmParseLine_conf_cases (env : LLMEnv) (st : LLMVerdict) (line : Str) :
    (llmParseLine env st line).confidence = st.confidence ∨
    (llmParseLine env st line).confidence = 1/2 ∨
    ∃ c, (llmParseLine env st line).confidence = max 0 (min 1 c) := by
  unfold llmParseLine
  by_cases h1 : pyStartsWith (pyStrip line) clsTag = true
  · rw [if_pos h1]
    dsimp only
    split_ifs <;> simp
  · rw [if_neg h1]
    by_cases h2 : pyStartsWith (pyStrip line) confTag = true
    · rw [if_pos h2]
      rcases hpf : env.parseFloat (pyStrip (pyReplace (pyStrip line) confTag []))
        with _ | c
      · simp [hpf]
      · right; right; exact ⟨c, by simp [hpf]⟩
    · rw [if_neg h2]
      split_ifs <;> simp

theorem llmParseLine_conf_bounds (env : LLMEnv) (st : LLMVerdict) (line : Str)
    (h : 0 ≤ st.confidence ∧ st.confidence ≤ 1) :
    0 ≤ (llmParseLine env st line).confidence ∧
      (llmParseLine env st line).confidence ≤ 1 := by
  rcases llmParseLine_conf_cases env st line with hc | hc | ⟨c, hc⟩
  · rw [hc]; exact h
  · rw [hc]; norm_num
  · rw [hc]
    refine ⟨le_max_left 0 _, max_le (by norm_num) (min_le_left 1 c)⟩

theorem llmParseLine_classification_preserved (env : LLMEnv) (st : LLMVerdict)
    (line : Str)
    (h : pyStartsWith (pyStrip line) clsTag = true →
      pyContains (pyUpper (pyStrip (pyReplace (pyStrip line) clsTag [])))
          "SQL".data = false ∧
      pyContains (pyUpper (pyStrip (pyReplace (pyStrip line) clsTag [])))
          "RAG".data = false) :
    (llmParseLine env st line).classification = st.classification := by
  unfold llmParseLine
  by_cases h1 : pyStartsWith (pyStrip line) clsTag = true
  · rw [if_pos h1]
    dsimp only
    rcases h h1 with ⟨hsql, hrag⟩
    rw [if_neg (by simp [hsql]), if_neg (by simp [hrag])]
  · rw [if_neg h1]
    by_cases h2 : pyStartsWith (pyStrip line) confTag = true
    · rw [if_pos h2]
      rcases env.parseFloat (pyStrip (pyReplace (pyStrip line) confTag []))
        with _ | c <;> rfl
    · rw [if_neg h2]
      split_ifs <;> rfl

theorem llmParseLine_conf_stays_half (env : LLMEnv) (st : LLMVerdict)
    (line : Str) (hc : st.confidence = 1/2)
    (h : pyStartsWith (pyStrip line) confTag = true →
      env.parseFloat (pyStrip (pyReplace (pyStrip line) confTag [])) = none) :
    (llmParseLine env st line).confidence = 1/2 := by
  unfold llmParseLine
  by_cases h1 : pyStartsWith (pyStrip line) clsTag = true
  · rw [if_pos h1]
    dsimp only
    split_ifs <;> exact hc
  · rw [if_neg h1]
    by_cases h2 : pyStartsWith (pyStrip line) confTag = true
    · rw [if_pos h2, h h2]
    · rw [if_neg h2]
      split_ifs <;> exact hc

theorem llmParseLine_reasoning_preserved (env : LLMEnv) (st : LLMVerdict)
    (line : Str) (h : pyStartsWith (pyStrip line) reasonTag = false) :
    (llmParseLine env st line).reasoning = st.reasoning := by
  unfold llmParseLine
  by_cases h1 : pyStartsWith (pyStrip line) clsTag = true
  · rw [if_pos h1]
    dsimp only
    split_ifs <;> rfl
  · rw [if_neg h1]
    by_cases h2 : pyStartsWith (pyStrip line) confTag = true
    · rw [if_pos h2]
      rcases env.parseFloat (pyStrip (pyReplace (pyStrip line) confTag []))
        with _ | c <;> rfl
    · rw [if_neg h2, if_neg (by simp [h])]

/-- Claim C8: `_llm_classification` never propagates an exception: it is a
total function of the completion-service outcome; a completion-service
failure yields the ambiguous verdict with confidence 0.5 and the exception
text as reasoning; for every reply the returned confidence lies in [0, 1];
and each of the three fields falls back to its documented default
(`ambiguous`, `0.5`, the could-not-parse reasoning) when its line is missing
or malformed throughout the reply. -/
theorem llmClassification_robust (env : LLMEnv) (idx : Nat) :
    (∀ e, env.generateResponse idx = .error e →
      llmClassification env idx =
        ⟨.ambiguous, 1/2, "LLM classification error: ".data ++ e⟩) ∧
    (0 ≤ (llmClassification env idx).confidence ∧
      (llmClassification env idx).confidence ≤ 1) ∧
    (∀ reply, env.generateResponse idx = .ok reply →
      ((∀ l ∈ pySplit '\n' (pyStrip reply),
          pyStartsWith (pyStrip l) clsTag = true →
          pyContains (pyUpper (pyStrip (pyReplace (pyStrip l) clsTag [])))
              "SQL".data = false ∧
          pyContains (pyUpper (pyStrip (pyReplace (pyStrip l) clsTag [])))
              "RAG".data = false) →
        (llmClassification env idx).classification = .ambiguous) ∧
      ((∀ l ∈ pySplit '\n' (pyStrip reply),
          pyStartsWith (pyStrip l) confTag = true →
          env.parseFloat (pyStrip (pyReplace (pyStrip l) confTag [])) = none) →
        (llmClassification env idx).confidence = 1/2) ∧
      ((∀ l ∈ pySplit '\n' (pyStrip reply),
          pyStartsWith (pyStrip l) reasonTag = false) →
        (llmClassification env idx).reasoning =
          "Could not parse LLM response".data)) := by
  rcases hr : env.generateResponse idx with e | reply
  · refine ⟨?_, ?_, ?_⟩
    · intro e' he
      cases he
      simp [llmClassification, hr]
    · simp [llmClassification, hr]
      norm_num
    · intro reply' hok
      cases hok
  · refine ⟨?_, ?_, ?_⟩
    · intro e' he
      cases he
    · simp only [llmClassification, hr]
      exact foldl_inv (fun st => 0 ≤ st.confidence ∧ st.confidence ≤ 1)
        (llmParseLine env) _ llmDefaultVerdict (by simp [llmDefaultVerdict]; norm_num)
        (fun x b _ hx => llmParseLine_conf_bounds env x b hx)
    · intro reply' hok
      cases hok
      refine ⟨?_, ?_, ?_⟩
      · intro h
        simp only [llmClassification, hr]
        exact foldl_inv (fun st => st.classification = .ambiguous)
          (llmParseLine env) _ llmDefaultVerdict (by simp [llmDefaultVerdict])
          (fun x b hb hx =>
            (llmParseLine_classification_preserved env x b (h b hb)).trans hx)
      · intro h
        simp only [llmClassification, hr]
        exact foldl_inv (fun st => st.confidence = 1/2)
          (llmParseLine env) _ llmDefaultVerdict (by simp [llmDefaultVerdict])
          (fun x b hb hx => llmParseLine_conf_stays_half env x b hx (h b hb))
      · intro h
        simp only [llmClassification, hr]
        exact foldl_inv (fun st => st.reasoning = "Could not parse LLM response".data)
          (llmParseLine env) _ llmDefaultVerdict (by simp [llmDefaultVerdict])
          (fun x b hb hx =>
            (llmParseLine_reasoning_preserved env x b (h b hb)).trans hx)

/-- Claim C8 witness: on a completion service answering an empty reply with
an unparseable-everything `float`, all three fields fall back to the
documented defaults. -/
theorem llmClassification_robust_witness :
    (llmBlankEnv.generateResponse 0 = .ok []) ∧
    (llmClassification llmBlankEnv 0).classification = .ambiguous ∧
    (llmClassification llmBlankEnv 0).confidence = 1/2 ∧
    (llmClassification llmBlankEnv 0).reasoning =
      "Could not parse LLM response".data := by
  have h := (llmClassification_robust llmBlankEnv 0).2.2 [] rfl
  exact ⟨rfl, h.1 (by decide), h.2.1 (fun l hl hs => rfl), h.2.2 (by decide)⟩

/-! ## Router reduction lemmas -/

theorem capabilityDispatch_val_stats (call : Str → Except Str Str)
    (agent : Str) (post : Str → Str) (r : RouteResult) (query : Str)
    (bump : Stats) :
    ((capabilityDispatch call agent post r query bump).val).2 = bump := by
  unfold capabilityDispatch
  rcases call query with e | a <;> rfl

theorem capabilityDispatch_ok {call : Str → Except Str Str} {query a : Str}
    (h : call query = .ok a) (agent : Str) (post : Str → Str)
    (r : RouteResult) (bump : Stats) :
    capabilityDispatch call agent post r query bump =
      .ok ({ r with
             response := some (post a),
             agentUsed := some agent,
             success := true }, bump) := by
  unfold capabilityDispatch
  rw [h]

theorem capabilityDispatch_exn {call : Str → Except Str Str} {query e : Str}
    (h : call query = .error e) (agent : Str) (post : Str → Str)
    (r : RouteResult) (bump : Stats) :
    capabilityDispatch call agent post r query bump = .exn e (r, bump) := by
  unfold capabilityDispatch
  rw [h]

theorem routeQuery_of_ok {env : RouterEnv} {q : Str} {f : Option Str}
    {st : Stats} {r1 : RouteResult} {st1 : Stats}
    (h : routeTry env q f st = .ok (r1, st1)) :
    routeQuery env q f st =
      ({ r1 with executionTime := env.clock 1 - env.clock 0 }, st1) := by
  unfold routeQuery
  rw [h]

theorem routeQuery_of_exn {env : RouterEnv} {q e : Str} {f : Option Str}
    {st : Stats} {r1 : RouteResult} {st1 : Stats}
    (h : routeTry env q f st = .exn e (r1, st1)) :
    routeQuery env q f st =
      ({ r1 with
         error := some (routingErrorPrefix ++ e),
         response := some apologyMsg,
         success := false,
         executionTime := env.clock 1 - env.clock 0 }, st1) := by
  unfold routeQuery
  rw [h]

theorem routeQuery_stats (env : RouterEnv) (q : Str) (f : Option Str)
    (st : Stats) :
    (routeQuery env q f st).2 = (routeTry env q f st).val.2 := by
  unfold routeQuery
  rcases h : routeTry env q f st with ⟨r1, st1⟩ | ⟨e, r1, st1⟩ <;>
    simp [Tried.val]

theorem routeQuery_time (env : RouterEnv) (q : Str) (f : Option Str)
    (st : Stats) :
    (routeQuery env q f st).1.executionTime = env.clock 1 - env.clock 0 := by
  unfold routeQuery
  rcases h : routeTry env q f st with ⟨r1, st1⟩ | ⟨e, r1, st1⟩ <;> rfl

theorem classifyQuery_calls (c : Classifier) (q : Str) (n : Nat) :
    (classifyQuery c q n).2 = n + 1 := by
  unfold classifyQuery
  rcases llmClassification c.llmEnv n with ⟨t, conf, reas⟩
  dsimp only

theorem routeTry_sql_pass (env : RouterEnv) (q : Str) (f : Option Str)
    (st : Stats)
    (hp1 : pyStartsWith (pyLower q) forceSqlPrefix = false)
    (hp2 : pyStartsWith (pyLower q) forceRagPrefix = false)
    (hf : pyTruthy f = false)
    (hq : (classifyQuery env.classifier q st.llmCalls).1.queryType = .sql)
    (hge : (classifyQuery env.classifier q st.llmCalls).1.confidence ≥
      env.confidenceThreshold) :
    routeTry env q f st =
      capabilityDispatch env.sqlAsk sqlAgentName (fun s => s)
        { initRouteResult env q with
          classification := some (summarizeClassification
            (classifyQuery env.classifier q st.llmCalls).1) }
        q
        ⟨(classifyQuery env.classifier q st.llmCalls).2, st.sqlCalls + 1,
          st.ragCalls⟩ := by
  unfold routeTry
  rw [show parseForcePrefix q f = (f, q) by simp [parseForcePrefix, hp1, hp2]]
  dsimp only
  rw [if_neg (by simp [hf])]
  dsimp only
  rw [hq]
  dsimp only
  rw [if_pos (Or.inl hge)]

theorem routeTry_sql_clarify (env : RouterEnv) (q : Str) (f : Option Str)
    (st : Stats)
    (hp1 : pyStartsWith (pyLower q) forceSqlPrefix = false)
    (hp2 : pyStartsWith (pyLower q) forceRagPrefix = false)
    (hf : pyTruthy f = false)
    (hq : (classifyQuery env.classifier q st.llmCalls).1.queryType = .sql)
    (hlt : ¬ (classifyQuery env.classifier q st.llmCalls).1.confidence ≥
      env.confidenceThreshold) :
    routeTry env q f st =
      .ok ({ initRouteResult env q with
             classification := some (summarizeClassification
               (classifyQuery env.classifier q st.llmCalls).1),
             response := some (requestClarification env q
               (classifyQuery env.classifier q st.llmCalls).1),
             agentUsed := some clarifierName,
             success := true },
        ⟨(classifyQuery env.classifier q st.llmCalls).2, st.sqlCalls,
          st.ragCalls⟩) := by
  unfold routeTry
  rw [show parseForcePrefix q f = (f, q) by simp [parseForcePrefix, hp1, hp2]]
  dsimp only
  rw [if_neg (by simp [hf])]
  dsimp only
  rw [hq]
  dsimp only
  rw [if_neg (by rw [hf]; simp only [Bool.false_eq_true, or_false]; exact hlt)]

theorem routeTry_rag_pass (env : RouterEnv) (q : Str) (f : Option Str)
    (st : Stats)
    (hp1 : pyStartsWith (pyLower q) forceSqlPrefix = false)
    (hp2 : pyStartsWith (pyLower q) forceRagPrefix = false)
    (hf : pyTruthy f = false)
    (hq : (classifyQuery env.classifier q st.llmCalls).1.queryType = .rag)
    (hge : (classifyQuery env.classifier q st.llmCalls).1.confidence ≥
      max (2/5) (env.confidenceThreshold * (3/5))) :
    routeTry env q f st =
      capabilityDispatch env.processRegularQuery ragAgentName (fun s => s)
        { initRouteResult env q with
          classification := some (summarizeClassification
            (classifyQuery env.classifier q st.llmCalls).1) }
        q
        ⟨(classifyQuery env.classifier q st.llmCalls).2, st.sqlCalls,
          st.ragCalls + 1⟩ := by
  unfold routeTry
  rw [show parseForcePrefix q f = (f, q) by simp [parseForcePrefix, hp1, hp2]]
  dsimp only
  rw [if_neg (by simp [hf])]
  dsimp only
  rw [hq]
  dsimp only
  rw [if_pos (Or.inl hge)]

theorem routeTry_rag_clarify (env : RouterEnv) (q : Str) (f : Option Str)
    (st : Stats)
    (hp1 : pyStartsWith (pyLower q) forceSqlPrefix = false)
    (hp2 : pyStartsWith (pyLower q) forceRagPrefix = false)
    (hf : pyTruthy f = false)
    (hq : (classifyQuery env.classifier q st.llmCalls).1.queryType = .rag)
    (hlt : ¬ (classifyQuery env.classifier q st.llmCalls).1.confidence ≥
      max (2/5) (env.confidenceThreshold * (3/5))) :
    routeTry env q f st =
      .ok ({ initRouteResult env q with
             classification := some (summarizeClassification
               (classifyQuery env.classifier q st.llmCalls).1),
             response := some (requestClarification env q
               (classifyQuery env.classifier q st.llmCalls).1),
             agentUsed := some clarifierName,
             success := true },
        ⟨(classifyQuery env.classifier q st.llmCalls).2, st.sqlCalls,
          st.ragCalls⟩) := by
  unfold routeTry
  rw [show parseForcePrefix q f = (f, q) by simp [parseForcePrefix, hp1, hp2]]
  dsimp only
  rw [if_neg (by simp [hf])]
  dsimp only
  rw [hq]
  dsimp only
  rw [if_neg (by rw [hf]; simp only [Bool.false_eq_true, or_false]; exact hlt)]

theorem routeTry_ambiguous_sql (env : RouterEnv) (q : Str) (f : Option Str)
    (st : Stats)
    (hp1 : pyStartsWith (pyLower q) forceSqlPrefix = false)
    (hp2 : pyStartsWith (pyLower q) forceRagPrefix = false)
    (hf : pyTruthy f = false)
    (hq : (classifyQuery env.classifier q st.llmCalls).1.queryType = .ambiguous)
    (hgt : (finalScores env.classifier q
        (llmClassification env.classifier.llmEnv
          (classifyQuery env.classifier q st.llmCalls).2).classification
        (llmClassification env.classifier.llmEnv
          (classifyQuery env.classifier q st.llmCalls).2).confidence).1 >
      (finalScores env.classifier q
        (llmClassification env.classifier.llmEnv
          (classifyQuery env.classifier q st.llmCalls).2).classification
        (llmClassification env.classifier.llmEnv
          (classifyQuery env.classifier q st.llmCalls).2).confidence).2) :
    routeTry env q f st =
      capabilityDispatch env.sqlAsk sqlAgentName
        (fun s => s ++ ambiguousDisclaimer sqlAgentName)
        { initRouteResult env q with
          classification := some (summarizeClassification
            (classifyQuery env.classifier q st.llmCalls).1) }
        q
        ⟨(classifyQuery env.classifier q st.llmCalls).2 + 1, st.sqlCalls + 1,
          st.ragCalls⟩ := by
  unfold routeTry
  rw [show parseForcePrefix q f = (f, q) by simp [parseForcePrefix, hp1, hp2]]
  dsimp only
  rw [if_neg (by simp [hf])]
  dsimp only
  rw [hq]
  dsimp only
  rw [if_pos hgt]

theorem routeTry_ambiguous_rag (env : RouterEnv) (q : Str) (f : Option Str)
    (st : Stats)
    (hp1 : pyStartsWith (pyLower q) forceSqlPrefix = false)
    (hp2 : pyStartsWith (pyLower q) forceRagPrefix = false)
    (hf : pyTruthy f = false)
    (hq : (classifyQuery env.classifier q st.llmCalls).1.queryType = .ambiguous)
    (hle : ¬ (finalScores env.classifier q
        (llmClassification env.classifier.llmEnv
          (classifyQuery env.classifier q st.llmCalls).2).classification
        (llmClassification env.classifier.llmEnv
          (classifyQuery env.classifier q st.llmCalls).2).confidence).1 >
      (finalScores env.classifier q
        (llmClassification env.classifier.llmEnv
          (classifyQuery env.classifier q st.llmCalls).2).classification
        (llmClassification env.classifier.llmEnv
          (classifyQuery env.classifier q st.llmCalls).2).confidence).2) :
    routeTry env q f st =
      capabilityDispatch env.processRegularQuery ragAgentName
        (fun s => s ++ ambiguousDisclaimer ragAgentName)
        { initRouteResult env q with
          classification := some (summarizeClassification
            (classifyQuery env.classifier q st.llmCalls).1) }
        q
        ⟨(classifyQuery env.classifier q st.llmCalls).2 + 1, st.sqlCalls,
          st.ragCalls + 1⟩ := by
  unfold routeTry
  rw [show parseForcePrefix q f = (f, q) by simp [parseForcePrefix, hp1, hp2]]
  dsimp only
  rw [if_neg (by simp [hf])]
  dsimp only
  rw [hq]
  dsimp only
  rw [if_neg hle]

theorem routeTry_prefix_sql (env : RouterEnv) (q : Str) (f : Option Str)
    (st : Stats)
    (hp1 : pyStartsWith (pyLower q) forceSqlPrefix = true) :
    routeTry env q f st =
      capabilityDispatch env.sqlAsk sqlAgentName (fun s => s)
        { initRouteResult env q with
          classification := some (summarizeClassification
            ⟨.sql, 1, "Forced SQL routing".data, sqlAgentName⟩) }
        (pyStrip (q.drop 10))
        ⟨st.llmCalls, st.sqlCalls + 1, st.ragCalls⟩ := by
  unfold routeTry
  rw [show parseForcePrefix q f = (some "sql".data, pyStrip (q.drop 10)) by
    simp [parseForcePrefix, hp1]]
  dsimp only
  rw [if_pos (by decide : pyTruthy (some "sql".data) = true)]
  dsimp only [Option.getD_some]
  rw [show forcedClassification "sql".data =
    some ⟨QueryType.sql, 1, "Forced SQL routing".data, sqlAgentName⟩ from rfl]
  dsimp only
  rw [if_pos (Or.inr (by decide : pyTruthy (some "sql".data) = true))]

theorem routeTry_prefix_rag (env : RouterEnv) (q : Str) (f : Option Str)
    (st : Stats)
    (hp1 : pyStartsWith (pyLower q) forceSqlPrefix = false)
    (hp2 : pyStartsWith (pyLower q) forceRagPrefix = true) :
    routeTry env q f st =
      capabilityDispatch env.processRegularQuery ragAgentName (fun s => s)
        { initRouteResult env q with
          classification := some (summarizeClassification
            ⟨.rag, 1, "Forced RAG routing".data, ragAgentName⟩) }
        (pyStrip (q.drop 10))
        ⟨st.llmCalls, st.sqlCalls, st.ragCalls + 1⟩ := by
  unfold routeTry
  rw [show parseForcePrefix q f = (some "rag".data, pyStrip (q.drop 10)) by
    simp [parseForcePrefix, hp1, hp2]]
  dsimp only
  rw [if_pos (by decide : pyTruthy (some "rag".data) = true)]
  dsimp only [Option.getD_some]
  rw [show forcedClassification "rag".data =
    some ⟨QueryType.rag, 1, "Forced RAG routing".data, ragAgentName⟩ from rfl]
  dsimp only
  rw [if_pos (Or.inr (by decide : pyTruthy (some "rag".data) = true))]

theorem routeTry_forced_bad (env : RouterEnv) (q s : Str) (st : Stats)
    (hp1 : pyStartsWith (pyLower q) forceSqlPrefix = false)
    (hp2 : pyStartsWith (pyLower q) forceRagPrefix = false)
    (hs : s ≠ [])
    (hsql : pyLower s ≠ "sql".data)
    (hrag : pyLower s ≠ "rag".data) :
    routeTry env q (some s) st = .exn unboundLocalMsg (initRouteResult env q, st) := by
  unfold routeTry
  rw [show parseForcePrefix q (some s) = (some s, q) by
    simp [parseForcePrefix, hp1, hp2]]
  dsimp only
  rw [if_pos (by simp [pyTruthy, hs] : pyTruthy (some s) = true)]
  dsimp only [Option.getD_some]
  rw [show forcedClassification s = none by
    simp [forcedClassification, hsql, hrag]]

theorem finalScores_spec (c : Classifier) (q : Str) (t : QueryType) (conf : ℚ) :
    finalScores c q t conf =
      ((1/4) * (c.keywordAnalysis q).1 + (1/4) * c.dbContextAnalysis q +
        (1/4) * (c.patternAnalysis q).1 + (1/4) * (if t = .sql then conf else 0),
       (1/4) * (c.keywordAnalysis q).2 + (1/4) * (1 - c.dbContextAnalysis q) +
        (1/4) * (c.patternAnalysis q).2 + (1/4) * (if t = .rag then conf else 0)) := by
  unfold finalScores
  dsimp only
  rw [Prod.ext_iff]
  constructor <;> (dsimp only; split_ifs <;> ring)

theorem classifyQuery_resolution (c : Classifier) (q : Str) (n : Nat)
    (sT kT : ℚ)
    (hs1 : (finalScores c q (llmClassification c.llmEnv n).classification
      (llmClassification c.llmEnv n).confidence).1 = sT)
    (hs2 : (finalScores c q (llmClassification c.llmEnv n).classification
      (llmClassification c.llmEnv n).confidence).2 = kT) :
    (|sT - kT| < 1/10 →
      (classifyQuery c q n).1.queryType = .ambiguous ∧
      (classifyQuery c q n).1.confidence = 1/2) ∧
    (¬ |sT - kT| < 1/10 →
      (sT > kT →
        (classifyQuery c q n).1.queryType = .sql ∧
        (classifyQuery c q n).1.confidence = min sT (19/20)) ∧
      (¬ sT > kT →
        (classifyQuery c q n).1.queryType = .rag ∧
        (classifyQuery c q n).1.confidence = min kT (19/20))) := by
  constructor
  · intro h
    constructor
    · show (classifyQuery c q n).1.queryType = .ambiguous
      unfold classifyQuery
      dsimp only
      rw [hs1, hs2, if_pos h]
    · show (classifyQuery c q n).1.confidence = 1/2
      unfold classifyQuery
      dsimp only
      rw [hs1, hs2, if_pos h]
  · intro h
    constructor
    · intro hgt
      constructor
      · show (classifyQuery c q n).1.queryType = .sql
        unfold classifyQuery
        dsimp only
        rw [hs1, hs2, if_neg h, if_pos hgt]
      · show (classifyQuery c q n).1.confidence = min sT (19/20)
        unfold classifyQuery
        dsimp only
        rw [hs1, hs2, if_neg h, if_pos hgt]
    · intro hgt
      constructor
      · show (classifyQuery c q n).1.queryType = .rag
        unfold classifyQuery
        dsimp only
        rw [hs1, hs2, if_neg h, if_neg hgt]
      · show (classifyQuery c q n).1.confidence = min kT (19/20)
        unfold classifyQuery
        dsimp only
        rw [hs1, hs2, if_neg h, if_neg hgt]

theorem strongSql_verdict :
    llmClassification strongSqlClassifier.llmEnv 0 =
      ⟨.ambiguous, 1/2, "LLM classification error: bad gateway".data⟩ := rfl

theorem strongSql_scores :
    (finalScores strongSqlClassifier []
        (llmClassification strongSqlClassifier.llmEnv 0).classification
        (llmClassification strongSqlClassifier.llmEnv 0).confidence).1 = 3/4 ∧
    (finalScores strongSqlClassifier []
        (llmClassification strongSqlClassifier.llmEnv 0).classification
        (llmClassification strongSqlClassifier.llmEnv 0).confidence).2 = 0 := by
  rw [strongSql_verdict, finalScores_spec]
  dsimp only
  rw [if_neg (by decide : ¬ (QueryType.ambiguous = QueryType.sql)),
    if_neg (by decide : ¬ (QueryType.ambiguous = QueryType.rag))]
  norm_num [strongSqlClassifier]

theorem strongSql_classified :
    (classifyQuery strongSqlClassifier [] 0).1.queryType = .sql ∧
    (classifyQuery strongSqlClassifier [] 0).1.confidence = 3/4 := by
  have h := classifyQuery_resolution strongSqlClassifier [] 0 (3/4) 0
    strongSql_scores.1 strongSql_scores.2
  have habs : |(3/4 : ℚ) - 0| = 3/4 - 0 := abs_of_nonneg (by norm_num)
  have h2 := (h.2 (by rw [habs]; norm_num)).1 (by norm_num)
  refine ⟨h2.1, ?_⟩
  rw [h2.2]
  norm_num

theorem tie_verdict (n : Nat) :
    llmClassification tieClassifier.llmEnv n = llmDefaultVerdict := rfl

theorem tie_scores :
    finalScores tieClassifier [] QueryType.ambiguous (1/2) = (1/8, 1/8) := by
  rw [finalScores_spec]
  rw [Prod.ext_iff]
  dsimp only
  rw [if_neg (by decide : ¬ (QueryType.ambiguous = QueryType.sql)),
    if_neg (by decide : ¬ (QueryType.ambiguous = QueryType.rag))]
  norm_num [tieClassifier]

theorem tie_classified :
    (classifyQuery tieClassifier [] 0).1.queryType = .ambiguous := by
  have hs1 : (finalScores tieClassifier []
      (llmClassification tieClassifier.llmEnv 0).classification
      (llmClassification tieClassifier.llmEnv 0).confidence).1 = 1/8 := by
    rw [tie_verdict]
    rw [show llmDefaultVerdict.classification = QueryType.ambiguous from rfl,
      show llmDefaultVerdict.confidence = 1/2 from rfl, tie_scores]
  have hs2 : (finalScores tieClassifier []
      (llmClassification tieClassifier.llmEnv 0).classification
      (llmClassification tieClassifier.llmEnv 0).confidence).2 = 1/8 := by
    rw [tie_verdict]
    rw [show llmDefaultVerdict.classification = QueryType.ambiguous from rfl,
      show llmDefaultVerdict.confidence = 1/2 from rfl, tie_scores]
  have h := classifyQuery_resolution tieClassifier [] 0 (1/8) (1/8) hs1 hs2
  exact (h.1 (by norm_num)).1

theorem flip_verdict_first :
    llmClassification flipClassifier.llmEnv 0 =
      ⟨.sql, max 0 (min 1 (1/5)), "Could not parse LLM response".data⟩ := rfl

theorem flip_verdict_second :
    llmClassification flipClassifier.llmEnv 1 =
      ⟨.rag, max 0 (min 1 (1/5)), "Could not parse LLM response".data⟩ := rfl

theorem flip_clamped : max (0 : ℚ) (min 1 (1/5)) = 1/5 := by
  rw [min_eq_right (by norm_num : (1/5 : ℚ) ≤ 1),
    max_eq_right (by norm_num : (0 : ℚ) ≤ 1/5)]

theorem flip_scores_sql :
    finalScores flipClassifier [] QueryType.sql (max 0 (min 1 (1/5))) =
      (7/40, 1/8) := by
  rw [finalScores_spec, flip_clamped]
  rw [Prod.ext_iff]
  dsimp only
  rw [if_pos (rfl : QueryType.sql = QueryType.sql),
    if_neg (by decide : ¬ (QueryType.sql = QueryType.rag))]
  norm_num [flipClassifier]

theorem flip_scores_rag :
    finalScores flipClassifier [] QueryType.rag (max 0 (min 1 (1/5))) =
      (1/8, 7/40) := by
  rw [finalScores_spec, flip_clamped]
  rw [Prod.ext_iff]
  dsimp only
  rw [if_neg (by decide : ¬ (QueryType.rag = QueryType.sql)),
    if_pos (rfl : QueryType.rag = QueryType.rag)]
  norm_num [flipClassifier]

theorem flip_classified :
    (classifyQuery flipClassifier [] 0).1.queryType = .ambiguous := by
  have hs1 : (finalScores flipClassifier []
      (llmClassification flipClassifier.llmEnv 0).classification
      (llmClassification flipClassifier.llmEnv 0).confidence).1 = 7/40 := by
    rw [flip_verdict_first]
    rw [show (⟨QueryType.sql, max 0 (min 1 (1/5)),
        "Could not parse LLM response".data⟩ : LLMVerdict).classification =
      QueryType.sql from rfl]
    rw [show (⟨QueryType.sql, max 0 (min 1 (1/5)),
        "Could not parse LLM response".data⟩ : LLMVerdict).confidence =
      max 0 (min 1 (1/5)) from rfl]
    rw [flip_scores_sql]
  have hs2 : (finalScores flipClassifier []
      (llmClassification flipClassifier.llmEnv 0).classification
      (llmClassification flipClassifier.llmEnv 0).confidence).2 = 1/8 := by
    rw [flip_verdict_first]
    rw [show (⟨QueryType.sql, max 0 (min 1 (1/5)),
        "Could not parse LLM response".data⟩ : LLMVerdict).classification =
      QueryType.sql from rfl]
    rw [show (⟨QueryType.sql, max 0 (min 1 (1/5)),
        "Could not parse LLM response".data⟩ : LLMVerdict).confidence =
      max 0 (min 1 (1/5)) from rfl]
    rw [flip_scores_sql]
  have h := classifyQuery_resolution flipClassifier [] 0 (7/40) (1/8) hs1 hs2
  refine (h.1 ?_).1
  rw [show |(7/40 : ℚ) - 1/8| = 7/40 - 1/8 from abs_of_nonneg (by norm_num)]
  norm_num

/-! ## Claim C1 -/

/-- Claim C1: `classify_query` combines the four signals with fixed equal
weights 0.25 — `structured_total` as `0.25*keyword + 0.25*context +
0.25*pattern + 0.25*(LLM confidence when the verdict is structured, else 0)`,
and symmetrically for the knowledge total with `1 - context` — and resolves
them as: totals closer than 0.1 give the ambiguous label with confidence 0.5;
otherwise the label is the side with the larger total and the confidence is
that total capped at 0.95. -/
theorem classifyQuery_weighted_combination (c : Classifier) (query : Str)
    (n : Nat) (sT kT : ℚ)
    (hs : sT = (1/4) * (c.keywordAnalysis query).1 +
      (1/4) * c.dbContextAnalysis query + (1/4) * (c.patternAnalysis query).1 +
      (1/4) * (if (llmClassification c.llmEnv n).classification = .sql
               then (llmClassification c.llmEnv n).confidence else 0))
    (hk : kT = (1/4) * (c.keywordAnalysis query).2 +
      (1/4) * (1 - c.dbContextAnalysis query) +
      (1/4) * (c.patternAnalysis query).2 +
      (1/4) * (if (llmClassification c.llmEnv n).classification = .rag
               then (llmClassification c.llmEnv n).confidence else 0)) :
    (|sT - kT| < 1/10 →
      (classifyQuery c query n).1.queryType = .ambiguous ∧
      (classifyQuery c query n).1.confidence = 1/2) ∧
    (¬ |sT - kT| < 1/10 →
      (sT > kT →
        (classifyQuery c query n).1.queryType = .sql ∧
        (classifyQuery c query n).1.confidence = min sT (19/20)) ∧
      (kT > sT →
        (classifyQuery c query n).1.queryType = .rag ∧
        (classifyQuery c query n).1.confidence = min kT (19/20))) := by
  have hse : (finalScores c query (llmClassification c.llmEnv n).classification
      (llmClassification c.llmEnv n).confidence).1 = sT := by
    rw [finalScores_spec, hs]
  have hke : (finalScores c query (llmClassification c.llmEnv n).classification
      (llmClassification c.llmEnv n).confidence).2 = kT := by
    rw [finalScores_spec, hk]
  constructor
  · intro h
    constructor
    · show (classifyQuery c query n).1.queryType = .ambiguous
      unfold classifyQuery
      dsimp only
      rw [hse, hke, if_pos h]
    · show (classifyQuery c query n).1.confidence = 1/2
      unfold classifyQuery
      dsimp only
      rw [hse, hke, if_pos h]
  · intro h
    constructor
    · intro hgt
      constructor
      · show (classifyQuery c query n).1.queryType = .sql
        unfold classifyQuery
        dsimp only
        rw [hse, hke, if_neg h, if_pos hgt]
      · show (classifyQuery c query n).1.confidence = min sT (19/20)
        unfold classifyQuery
        dsimp only
        rw [hse, hke, if_neg h, if_pos hgt]
    · intro hgt
      have hnot : ¬ sT > kT := not_lt.mpr (le_of_lt hgt)
      constructor
      · show (classifyQuery c query n).1.queryType = .rag
        unfold classifyQuery
        dsimp only
        rw [hse, hke, if_neg h, if_neg hnot]
      · show (classifyQuery c query n).1.confidence = min kT (19/20)
        unfold classifyQuery
        dsimp only
        rw [hse, hke, if_neg h, if_neg hnot]

/-- Claim C1 witness: on the classifier whose signals are constantly
`keyword = (1, 0)`, `context = 1`, `pattern = (1, 0)` with a failing
completion service (ambiguous verdict), the totals are 3/4 versus 0 and the
structured label wins with confidence `min (3/4) 0.95`. -/
theorem classifyQuery_weighted_combination_witness :
    ((3/4 : ℚ) = (1/4) * (strongSqlClassifier.keywordAnalysis []).1 +
      (1/4) * strongSqlClassifier.dbContextAnalysis [] +
      (1/4) * (strongSqlClassifier.patternAnalysis []).1 +
      (1/4) * (if (llmClassification strongSqlClassifier.llmEnv 0).classification = .sql
               then (llmClassification strongSqlClassifier.llmEnv 0).confidence else 0)) ∧
    ¬ |(3/4 : ℚ) - 0| < 1/10 ∧
    (classifyQuery strongSqlClassifier [] 0).1.queryType = .sql ∧
    (classifyQuery strongSqlClassifier [] 0).1.confidence = min (3/4 : ℚ) (19/20) := by
  have hv : (llmClassification strongSqlClassifier.llmEnv 0).classification =
      QueryType.ambiguous := rfl
  have hs : (3/4 : ℚ) = (1/4) * (strongSqlClassifier.keywordAnalysis []).1 +
      (1/4) * strongSqlClassifier.dbContextAnalysis [] +
      (1/4) * (strongSqlClassifier.patternAnalysis []).1 +
      (1/4) * (if (llmClassification strongSqlClassifier.llmEnv 0).classification = .sql
               then (llmClassification strongSqlClassifier.llmEnv 0).confidence else 0) := by
    rw [hv, if_neg (by decide : ¬ (QueryType.ambiguous = QueryType.sql))]
    norm_num [strongSqlClassifier]
  have hk : (0 : ℚ) = (1/4) * (strongSqlClassifier.keywordAnalysis []).2 +
      (1/4) * (1 - strongSqlClassifier.dbContextAnalysis []) +
      (1/4) * (strongSqlClassifier.patternAnalysis []).2 +
      (1/4) * (if (llmClassification strongSqlClassifier.llmEnv 0).classification = .rag
               then (llmClassification strongSqlClassifier.llmEnv 0).confidence else 0) := by
    rw [hv, if_neg (by decide : ¬ (QueryType.ambiguous = QueryType.rag))]
    norm_num [strongSqlClassifier]
  have h := classifyQuery_weighted_combination strongSqlClassifier [] 0 (3/4) 0 hs hk
  have habs : |(3/4 : ℚ) - 0| = 3/4 - 0 := abs_of_nonneg (by norm_num)
  have hlt : ¬ |(3/4 : ℚ) - 0| < 1/10 := by rw [habs]; norm_num
  have h2 := (h.2 hlt).1 (by norm_num)
  exact ⟨hs, hlt, h2.1, h2.2⟩

/-! ## Claim C3 -/

/-- Claim C3: for an unforced question, `route_query` invokes the SQL
capability exactly when the classification is structured with confidence at
least the configured threshold, and the knowledge capability exactly when the
classification is knowledge with confidence at least
`max(0.4, threshold*0.6)`; below the applicable gate it returns the
clarification message with `success=True` and invokes neither capability.  A
question with a case-insensitive `force sql `/`force rag ` prefix has the
first ten characters stripped, carries confidence exactly 1.0, and is
dispatched to the forced capability regardless of computed scores (no
classification call is even made). -/
theorem routeQuery_threshold_gates (env : RouterEnv) (q : Str)
    (f : Option Str) (st : Stats) :
    (pyStartsWith (pyLower q) forceSqlPrefix = false →
     pyStartsWith (pyLower q) forceRagPrefix = false →
     pyTruthy f = false →
     (classifyQuery env.classifier q st.llmCalls).1.queryType = .sql →
      (((classifyQuery env.classifier q st.llmCalls).1.confidence ≥
          env.confidenceThreshold →
        (routeQuery env q f st).2.sqlCalls = st.sqlCalls + 1 ∧
        (routeQuery env q f st).2.ragCalls = st.ragCalls ∧
        (∀ a, env.sqlAsk q = .ok a →
          (routeQuery env q f st).1.response = some a ∧
          (routeQuery env q f st).1.agentUsed = some sqlAgentName ∧
          (routeQuery env q f st).1.success = true)) ∧
      (¬ (classifyQuery env.classifier q st.llmCalls).1.confidence ≥
          env.confidenceThreshold →
        (routeQuery env q f st).1.response = some (requestClarification env q
          (classifyQuery env.classifier q st.llmCalls).1) ∧
        (routeQuery env q f st).1.agentUsed = some clarifierName ∧
        (routeQuery env q f st).1.success = true ∧
        (routeQuery env q f st).2.sqlCalls = st.sqlCalls ∧
        (routeQuery env q f st).2.ragCalls = st.ragCalls))) ∧
    (pyStartsWith (pyLower q) forceSqlPrefix = false →
     pyStartsWith (pyLower q) forceRagPrefix = false →
     pyTruthy f = false →
     (classifyQuery env.classifier q st.llmCalls).1.queryType = .rag →
      (((classifyQuery env.classifier q st.llmCalls).1.confidence ≥
          max (2/5) (env.confidenceThreshold * (3/5)) →
        (routeQuery env q f st).2.ragCalls = st.ragCalls + 1 ∧
        (routeQuery env q f st).2.sqlCalls = st.sqlCalls ∧
        (∀ a, env.processRegularQuery q = .ok a →
          (routeQuery env q f st).1.response = some a ∧
          (routeQuery env q f st).1.agentUsed = some ragAgentName ∧
          (routeQuery env q f st).1.success = true)) ∧
      (¬ (classifyQuery env.classifier q st.llmCalls).1.confidence ≥
          max (2/5) (env.confidenceThreshold * (3/5)) →
        (routeQuery env q f st).1.response = some (requestClarification env q
          (classifyQuery env.classifier q st.llmCalls).1) ∧
        (routeQuery env q f st).1.agentUsed = some clarifierName ∧
        (routeQuery env q f st).1.success = true ∧
        (routeQuery env q f st).2.sqlCalls = st.sqlCalls ∧
        (routeQuery env q f st).2.ragCalls = st.ragCalls))) ∧
    (pyStartsWith (pyLower q) forceSqlPrefix = true →
      (routeQuery env q f st).1.classification =
        some (summarizeClassification
          ⟨.sql, 1, "Forced SQL routing".data, sqlAgentName⟩) ∧
      (routeQuery env q f st).2.sqlCalls = st.sqlCalls + 1 ∧
      (routeQuery env q f st).2.llmCalls = st.llmCalls ∧
      (∀ a, env.sqlAsk (pyStrip (q.drop 10)) = .ok a →
        (routeQuery env q f st).1.response = some a ∧
        (routeQuery env q f st).1.success = true)) ∧
    (pyStartsWith (pyLower q) forceSqlPrefix = false →
     pyStartsWith (pyLower q) forceRagPrefix = true →
      (routeQuery env q f st).1.classification =
        some (summarizeClassification
          ⟨.rag, 1, "Forced RAG routing".data, ragAgentName⟩) ∧
      (routeQuery env q f st).2.ragCalls = st.ragCalls + 1 ∧
      (routeQuery env q f st).2.llmCalls = st.llmCalls ∧
      (∀ a, env.processRegularQuery (pyStrip (q.drop 10)) = .ok a →
        (routeQuery env q f st).1.response = some a ∧
        (routeQuery env q f st).1.success = true)) := by
  refine ⟨?_, ?_, ?_, ?_⟩
  · intro hp1 hp2 hf hq
    constructor
    · intro hge
      have ht := routeTry_sql_pass env q f st hp1 hp2 hf hq hge
      refine ⟨?_, ?_, ?_⟩
      · rw [routeQuery_stats, ht, capabilityDispatch_val_stats]
      · rw [routeQuery_stats, ht, capabilityDispatch_val_stats]
      · intro a ha
        rw [routeQuery_of_ok (ht.trans
          (capabilityDispatch_ok ha sqlAgentName (fun s => s) _ _))]
        exact ⟨rfl, rfl, rfl⟩
    · intro hlt
      have ht := routeTry_sql_clarify env q f st hp1 hp2 hf hq hlt
      rw [routeQuery_of_ok ht]
      exact ⟨rfl, rfl, rfl, rfl, rfl⟩
  · intro hp1 hp2 hf hq
    constructor
    · intro hge
      have ht := routeTry_rag_pass env q f st hp1 hp2 hf hq hge
      refine ⟨?_, ?_, ?_⟩
      · rw [routeQuery_stats, ht, capabilityDispatch_val_stats]
      · rw [routeQuery_stats, ht, capabilityDispatch_val_stats]
      · intro a ha
        rw [routeQuery_of_ok (ht.trans
          (capabilityDispatch_ok ha ragAgentName (fun s => s) _ _))]
        exact ⟨rfl, rfl, rfl⟩
    · intro hlt
      have ht := routeTry_rag_clarify env q f st hp1 hp2 hf hq hlt
      rw [routeQuery_of_ok ht]
      exact ⟨rfl, rfl, rfl, rfl, rfl⟩
  · intro hp1
    have ht := routeTry_prefix_sql env q f st hp1
    refine ⟨?_, ?_, ?_, ?_⟩
    · rcases hask : env.sqlAsk (pyStrip (q.drop 10)) with e | a
      · rw [routeQuery_of_exn (ht.trans
          (capabilityDispatch_exn hask sqlAgentName (fun s => s) _ _))]
      · rw [routeQuery_of_ok (ht.trans
          (capabilityDispatch_ok hask sqlAgentName (fun s => s) _ _))]
    · rw [routeQuery_stats, ht, capabilityDispatch_val_stats]
    · rw [routeQuery_stats, ht, capabilityDispatch_val_stats]
    · intro a ha
      rw [routeQuery_of_ok (ht.trans
        (capabilityDispatch_ok ha sqlAgentName (fun s => s) _ _))]
      exact ⟨rfl, rfl⟩
  · intro hp1 hp2
    have ht := routeTry_prefix_rag env q f st hp1 hp2
    refine ⟨?_, ?_, ?_, ?_⟩
    · rcases hask : env.processRegularQuery (pyStrip (q.drop 10)) with e | a
      · rw [routeQuery_of_exn (ht.trans
          (capabilityDispatch_exn hask ragAgentName (fun s => s) _ _))]
      · rw [routeQuery_of_ok (ht.trans
          (capabilityDispatch_ok hask ragAgentName (fun s => s) _ _))]
    · rw [routeQuery_stats, ht, capabilityDispatch_val_stats]
    · rw [routeQuery_stats, ht, capabilityDispatch_val_stats]
    · intro a ha
      rw [routeQuery_of_ok (ht.trans
        (capabilityDispatch_ok ha ragAgentName (fun s => s) _ _))]
      exact ⟨rfl, rfl⟩

/-- Claim C3 witness: on the strong-structured router (threshold 0.7), an
unforced question classifies as structured with confidence 3/4 ≥ 0.7 and the
SQL capability is dispatched once, successfully. -/
theorem routeQuery_threshold_gates_witness :
    (classifyQuery strongSqlRouter.classifier [] 0).1.queryType = QueryType.sql ∧
    (classifyQuery strongSqlRouter.classifier [] 0).1.confidence ≥
      strongSqlRouter.confidenceThreshold ∧
    (routeQuery strongSqlRouter [] none ⟨0, 0, 0⟩).2.sqlCalls = 0 + 1 ∧
    (routeQuery strongSqlRouter [] none ⟨0, 0, 0⟩).1.response =
      some "SQL-ANSWER".data ∧
    (routeQuery strongSqlRouter [] none ⟨0, 0, 0⟩).1.agentUsed =
      some sqlAgentName ∧
    (routeQuery strongSqlRouter [] none ⟨0, 0, 0⟩).1.success = true := by
  have hq : (classifyQuery strongSqlRouter.classifier [] 0).1.queryType =
      QueryType.sql := strongSql_classified.1
  have hge : (classifyQuery strongSqlRouter.classifier [] 0).1.confidence ≥
      strongSqlRouter.confidenceThreshold := by
    rw [show (classifyQuery strongSqlRouter.classifier [] 0).1.confidence = 3/4
      from strongSql_classified.2]
    norm_num [strongSqlRouter, mkRouterEnv]
  have h := routeQuery_threshold_gates strongSqlRouter [] none ⟨0, 0, 0⟩
  have h1 := (h.1 (by decide) (by decide) (by decide) hq).1 hge
  have h2 := h1.2.2 "SQL-ANSWER".data rfl
  exact ⟨hq, hge, h1.1, h2.1, h2.2.1, h2.2.2⟩

/-! ## Claim C2 -/

/-- Claim C2 (counterexample to the claim as stated): on the balanced router
the classification is ambiguous with exactly equal recomputed totals, yet the
dispatched capability is the knowledge (RAG) agent — not the structured
(SQL) one the claim predicts for an exact tie (`>` sends equality to the
`else`/knowledge branch). -/
theorem routeQuery_tie_goes_to_knowledge :
    (classifyQuery tieRouter.classifier [] 0).1.queryType =
      QueryType.ambiguous ∧
    (finalScores tieRouter.classifier []
        (llmClassification tieRouter.classifier.llmEnv
          ((classifyQuery tieRouter.classifier [] 0).2)).classification
        (llmClassification tieRouter.classifier.llmEnv
          ((classifyQuery tieRouter.classifier [] 0).2)).confidence).1 =
      (finalScores tieRouter.classifier []
        (llmClassification tieRouter.classifier.llmEnv
          ((classifyQuery tieRouter.classifier [] 0).2)).classification
        (llmClassification tieRouter.classifier.llmEnv
          ((classifyQuery tieRouter.classifier [] 0).2)).confidence).2 ∧
    (routeQuery tieRouter [] none ⟨0, 0, 0⟩).1.agentUsed =
      some ragAgentName ∧
    (routeQuery tieRouter [] none ⟨0, 0, 0⟩).2.sqlCalls = 0 ∧
    ragAgentName ≠ sqlAgentName := by
  have hamb : (classifyQuery tieRouter.classifier [] 0).1.queryType =
      QueryType.ambiguous := tie_classified
  have hv : llmClassification tieRouter.classifier.llmEnv
      ((classifyQuery tieRouter.classifier [] 0).2) = llmDefaultVerdict :=
    tie_verdict _
  have heq : (finalScores tieRouter.classifier []
      (llmClassification tieRouter.classifier.llmEnv
        ((classifyQuery tieRouter.classifier [] 0).2)).classification
      (llmClassification tieRouter.classifier.llmEnv
        ((classifyQuery tieRouter.classifier [] 0).2)).confidence).1 =
      (finalScores tieRouter.classifier []
      (llmClassification tieRouter.classifier.llmEnv
        ((classifyQuery tieRouter.classifier [] 0).2)).classification
      (llmClassification tieRouter.classifier.llmEnv
        ((classifyQuery tieRouter.classifier [] 0).2)).confidence).2 := by
    rw [hv]
    rw [show llmDefaultVerdict.classification = QueryType.ambiguous from rfl,
      show llmDefaultVerdict.confidence = 1/2 from rfl]
    rw [show finalScores tieRouter.classifier [] QueryType.ambiguous (1/2) =
      ((1/8 : ℚ), (1/8 : ℚ)) from tie_scores]
  have hle : ¬ (finalScores tieRouter.classifier []
      (llmClassification tieRouter.classifier.llmEnv
        ((classifyQuery tieRouter.classifier [] 0).2)).classification
      (llmClassification tieRouter.classifier.llmEnv
        ((classifyQuery tieRouter.classifier [] 0).2)).confidence).1 >
      (finalScores tieRouter.classifier []
      (llmClassification tieRouter.classifier.llmEnv
        ((classifyQuery tieRouter.classifier [] 0).2)).classification
      (llmClassification tieRouter.classifier.llmEnv
        ((classifyQuery tieRouter.classifier [] 0).2)).confidence).2 := by
    rw [heq]
    exact lt_irrefl _
  have ht := routeTry_ambiguous_rag tieRouter [] none ⟨0, 0, 0⟩ (by decide)
    (by decide) (by decide) hamb hle
  refine ⟨hamb, heq, ?_, ?_, by decide⟩
  · rw [routeQuery_of_ok (ht.trans
      (capabilityDispatch_ok (rfl : tieRouter.processRegularQuery [] =
        .ok "RAG-ANSWER".data) ragAgentName
        (fun s => s ++ ambiguousDisclaimer ragAgentName) _ _))]
  · rw [routeQuery_stats, ht, capabilityDispatch_val_stats]

/-- Claim C2 (amended): for an unforced ambiguous question, `route_query`
still dispatches exactly one capability — the one with the strictly higher
recomputed raw total, the knowledge (RAG) capability being chosen when the
two totals are exactly equal (the code tests `sql > rag`, so equality falls
to the knowledge branch) — and, when the dispatched capability succeeds,
appends the visible best-guess disclaimer to its answer and returns
`success=True`. -/
theorem routeQuery_ambiguous_dispatch (env : RouterEnv) (q : Str)
    (f : Option Str) (st : Stats)
    (hp1 : pyStartsWith (pyLower q) forceSqlPrefix = false)
    (hp2 : pyStartsWith (pyLower q) forceRagPrefix = false)
    (hf : pyTruthy f = false)
    (hamb : (classifyQuery env.classifier q st.llmCalls).1.queryType =
      .ambiguous) :
    ((finalScores env.classifier q
        (llmClassification env.classifier.llmEnv
          (classifyQuery env.classifier q st.llmCalls).2).classification
        (llmClassification env.classifier.llmEnv
          (classifyQuery env.classifier q st.llmCalls).2).confidence).1 >
      (finalScores env.classifier q
        (llmClassification env.classifier.llmEnv
          (classifyQuery env.classifier q st.llmCalls).2).classification
        (llmClassification env.classifier.llmEnv
          (classifyQuery env.classifier q st.llmCalls).2).confidence).2 →
      (routeQuery env q f st).2.sqlCalls = st.sqlCalls + 1 ∧
      (routeQuery env q f st).2.ragCalls = st.ragCalls ∧
      (∀ a, env.sqlAsk q = .ok a →
        (routeQuery env q f st).1.response =
          some (a ++ ambiguousDisclaimer sqlAgentName) ∧
        (routeQuery env q f st).1.agentUsed = some sqlAgentName ∧
        (routeQuery env q f st).1.success = true)) ∧
    (¬ (finalScores env.classifier q
        (llmClassification env.classifier.llmEnv
          (classifyQuery env.classifier q st.llmCalls).2).classification
        (llmClassification env.classifier.llmEnv
          (classifyQuery env.classifier q st.llmCalls).2).confidence).1 >
      (finalScores env.classifier q
        (llmClassification env.classifier.llmEnv
          (classifyQuery env.classifier q st.llmCalls).2).classification
        (llmClassification env.classifier.llmEnv
          (classifyQuery env.classifier q st.llmCalls).2).confidence).2 →
      (routeQuery env q f st).2.ragCalls = st.ragCalls + 1 ∧
      (routeQuery env q f st).2.sqlCalls = st.sqlCalls ∧
      (∀ a, env.processRegularQuery q = .ok a →
        (routeQuery env q f st).1.response =
          some (a ++ ambiguousDisclaimer ragAgentName) ∧
        (routeQuery env q f st).1.agentUsed = some ragAgentName ∧
        (routeQuery env q f st).1.success = true)) := by
  constructor
  · intro hgt
    have ht := routeTry_ambiguous_sql env q f st hp1 hp2 hf hamb hgt
    refine ⟨?_, ?_, ?_⟩
    · rw [routeQuery_stats, ht, capabilityDispatch_val_stats]
    · rw [routeQuery_stats, ht, capabilityDispatch_val_stats]
    · intro a ha
      rw [routeQuery_of_ok (ht.trans (capabilityDispatch_ok ha sqlAgentName
        (fun s => s ++ ambiguousDisclaimer sqlAgentName) _ _))]
      exact ⟨rfl, rfl, rfl⟩
  · intro hle
    have ht := routeTry_ambiguous_rag env q f st hp1 hp2 hf hamb hle
    refine ⟨?_, ?_, ?_⟩
    · rw [routeQuery_stats, ht, capabilityDispatch_val_stats]
    · rw [routeQuery_stats, ht, capabilityDispatch_val_stats]
    · intro a ha
      rw [routeQuery_of_ok (ht.trans (capabilityDispatch_ok ha ragAgentName
        (fun s => s ++ ambiguousDisclaimer ragAgentName) _ _))]
      exact ⟨rfl, rfl, rfl⟩

/-- Claim C2 witness: the amended dispatch behavior evaluated on the balanced
router: the tie goes to the knowledge capability, whose answer carries the
best-guess disclaimer, with `success=True`. -/
theorem routeQuery_ambiguous_dispatch_witness :
    (classifyQuery tieRouter.classifier [] 0).1.queryType =
      QueryType.ambiguous ∧
    (routeQuery tieRouter [] none ⟨0, 0, 0⟩).2.ragCalls = 0 + 1 ∧
    (routeQuery tieRouter [] none ⟨0, 0, 0⟩).2.sqlCalls = 0 ∧
    (routeQuery tieRouter [] none ⟨0, 0, 0⟩).1.response =
      some ("RAG-ANSWER".data ++ ambiguousDisclaimer ragAgentName) ∧
    (routeQuery tieRouter [] none ⟨0, 0, 0⟩).1.success = true := by
  have hamb : (classifyQuery tieRouter.classifier [] 0).1.queryType =
      QueryType.ambiguous := tie_classified
  have hle : ¬ (finalScores tieRouter.classifier []
      (llmClassification tieRouter.classifier.llmEnv
        ((classifyQuery tieRouter.classifier [] 0).2)).classification
      (llmClassification tieRouter.classifier.llmEnv
        ((classifyQuery tieRouter.classifier [] 0).2)).confidence).1 >
      (finalScores tieRouter.classifier []
      (llmClassification tieRouter.classifier.llmEnv
        ((classifyQuery tieRouter.classifier [] 0).2)).classification
      (llmClassification tieRouter.classifier.llmEnv
        ((classifyQuery tieRouter.classifier [] 0).2)).confidence).2 := by
    rw [show llmClassification tieRouter.classifier.llmEnv
        ((classifyQuery tieRouter.classifier [] 0).2) = llmDefaultVerdict
      from tie_verdict _]
    rw [show llmDefaultVerdict.classification = QueryType.ambiguous from rfl,
      show llmDefaultVerdict.confidence = 1/2 from rfl]
    rw [show finalScores tieRouter.classifier [] QueryType.ambiguous (1/2) =
      ((1/8 : ℚ), (1/8 : ℚ)) from tie_scores]
    exact lt_irrefl _
  have h := (routeQuery_ambiguous_dispatch tieRouter [] none ⟨0, 0, 0⟩
    (by decide) (by decide) (by decide) hamb).2 hle
  have h2 := h.2.2 "RAG-ANSWER".data rfl
  exact ⟨hamb, h.1, h.2.1, h2.1, h2.2.2⟩

/-! ## Claim C5 -/

/-- Claim C5: `route_query` never propagates an exception: it always returns
a result record whose `execution_time` is the wall-clock span between the two
`time.time()` readings, and whenever the `try` block raises — from
classification, dispatch, or the unbound `classification_result` — the
record has `success=False`, the `error` field set to the prefixed exception
text, and the fixed user-safe apology as the response. -/
theorem routeQuery_catches_exceptions (env : RouterEnv) (q : Str)
    (f : Option Str) (st : Stats) :
    (routeQuery env q f st).1.executionTime = env.clock 1 - env.clock 0 ∧
    (∀ e r1 st1, routeTry env q f st = .exn e (r1, st1) →
      (routeQuery env q f st).1.success = false ∧
      (routeQuery env q f st).1.error = some (routingErrorPrefix ++ e) ∧
      (routeQuery env q f st).1.response = some apologyMsg) := by
  refine ⟨routeQuery_time env q f st, ?_⟩
  intro e r1 st1 h
  rw [routeQuery_of_exn h]
  exact ⟨rfl, rfl, rfl⟩

/-- Claim C5 witness: on a router whose SQL capability raises, a forced-SQL
question is caught by the top-level handler: `success=False`, the prefixed
error text, the apology response, and the wall-clock span are recorded. -/
theorem routeQuery_catches_exceptions_witness :
    (routeQuery throwSqlRouter "force sql x".data none ⟨0, 0, 0⟩).1.success =
      false ∧
    (routeQuery throwSqlRouter "force sql x".data none ⟨0, 0, 0⟩).1.error =
      some (routingErrorPrefix ++ "capability down".data) ∧
    (routeQuery throwSqlRouter "force sql x".data none ⟨0, 0, 0⟩).1.response =
      some apologyMsg ∧
    (routeQuery throwSqlRouter "force sql x".data none ⟨0, 0, 0⟩).1.executionTime =
      throwSqlRouter.clock 1 - throwSqlRouter.clock 0 := by
  have h := routeQuery_catches_exceptions throwSqlRouter "force sql x".data
    none ⟨0, 0, 0⟩
  have ht := routeTry_prefix_sql throwSqlRouter "force sql x".data none
    ⟨0, 0, 0⟩ (by decide)
  have hexn := ht.trans (capabilityDispatch_exn
    (rfl : throwSqlRouter.sqlAsk (pyStrip (("force sql x".data).drop 10)) =
      .error "capability down".data) sqlAgentName (fun s => s) _ _)
  have h2 := h.2 _ _ _ hexn
  exact ⟨h2.1, h2.2.1, h2.2.2, h.1⟩

/-! ## Claim C9 -/

/-- Claim C9: when the classification of an unforced question is ambiguous,
`route_query` does not reuse the totals computed during classification: it
recomputes all four signals, issuing a second completion-service call — the
routed question consumes exactly two classification calls — and dispatches
on the recomputed totals; concretely, on the flip router whose two calls
return different verdicts (SQL then RAG), the original totals favor the
structured side yet the knowledge capability is the one dispatched. -/
theorem routeQuery_ambiguous_recomputes (env : RouterEnv) (q : Str)
    (f : Option Str) (st : Stats)
    (hp1 : pyStartsWith (pyLower q) forceSqlPrefix = false)
    (hp2 : pyStartsWith (pyLower q) forceRagPrefix = false)
    (hf : pyTruthy f = false)
    (hamb : (classifyQuery env.classifier q st.llmCalls).1.queryType =
      .ambiguous) :
    (routeQuery env q f st).2.llmCalls = st.llmCalls + 2 ∧
    ((llmClassification flipRouter.classifier.llmEnv 0).classification =
      QueryType.sql ∧
    (llmClassification flipRouter.classifier.llmEnv 1).classification =
      QueryType.rag ∧
    (finalScores flipRouter.classifier []
        (llmClassification flipRouter.classifier.llmEnv 0).classification
        (llmClassification flipRouter.classifier.llmEnv 0).confidence).1 >
      (finalScores flipRouter.classifier []
        (llmClassification flipRouter.classifier.llmEnv 0).classification
        (llmClassification flipRouter.classifier.llmEnv 0).confidence).2 ∧
    (classifyQuery flipRouter.classifier [] 0).1.queryType =
      QueryType.ambiguous ∧
    (routeQuery flipRouter [] none ⟨0, 0, 0⟩).1.agentUsed =
      some ragAgentName ∧
    (routeQuery flipRouter [] none ⟨0, 0, 0⟩).2.llmCalls = 0 + 2) := by
  constructor
  · by_cases hgt : (finalScores env.classifier q
        (llmClassification env.classifier.llmEnv
          (classifyQuery env.classifier q st.llmCalls).2).classification
        (llmClassification env.classifier.llmEnv
          (classifyQuery env.classifier q st.llmCalls).2).confidence).1 >
        (finalScores env.classifier q
        (llmClassification env.classifier.llmEnv
          (classifyQuery env.classifier q st.llmCalls).2).classification
        (llmClassification env.classifier.llmEnv
          (classifyQuery env.classifier q st.llmCalls).2).confidence).2
    · have ht := routeTry_ambiguous_sql env q f st hp1 hp2 hf hamb hgt
      rw [routeQuery_stats, ht, capabilityDispatch_val_stats]
      show (classifyQuery env.classifier q st.llmCalls).2 + 1 = st.llmCalls + 2
      rw [classifyQuery_calls]
    · have ht := routeTry_ambiguous_rag env q f st hp1 hp2 hf hamb hgt
      rw [routeQuery_stats, ht, capabilityDispatch_val_stats]
      show (classifyQuery env.classifier q st.llmCalls).2 + 1 = st.llmCalls + 2
      rw [classifyQuery_calls]
  · have hv0 : (llmClassification flipRouter.classifier.llmEnv 0).classification =
        QueryType.sql := rfl
    have hv1 : (llmClassification flipRouter.classifier.llmEnv 1).classification =
        QueryType.rag := rfl
    have hfav : (finalScores flipRouter.classifier []
        (llmClassification flipRouter.classifier.llmEnv 0).classification
        (llmClassification flipRouter.classifier.llmEnv 0).confidence).1 >
        (finalScores flipRouter.classifier []
        (llmClassification flipRouter.classifier.llmEnv 0).classification
        (llmClassification flipRouter.classifier.llmEnv 0).confidence).2 := by
      rw [show llmClassification flipRouter.classifier.llmEnv 0 =
        (⟨QueryType.sql, max 0 (min 1 (1/5)),
          "Could not parse LLM response".data⟩ : LLMVerdict)
        from flip_verdict_first]
      rw [show (⟨QueryType.sql, max 0 (min 1 (1/5)),
          "Could not parse LLM response".data⟩ : LLMVerdict).classification =
        QueryType.sql from rfl]
      rw [show (⟨QueryType.sql, max 0 (min 1 (1/5)),
          "Could not parse LLM response".data⟩ : LLMVerdict).confidence =
        max 0 (min 1 (1/5)) from rfl]
      rw [show finalScores flipRouter.classifier [] QueryType.sql
        (max 0 (min 1 (1/5))) = ((7/40 : ℚ), (1/8 : ℚ)) from flip_scores_sql]
      norm_num
    have hamb2 : (classifyQuery flipRouter.classifier [] 0).1.queryType =
        QueryType.ambiguous := flip_classified
    have hle : ¬ (finalScores flipRouter.classifier []
        (llmClassification flipRouter.classifier.llmEnv
          ((classifyQuery flipRouter.classifier [] 0).2)).classification
        (llmClassification flipRouter.classifier.llmEnv
          ((classifyQuery flipRouter.classifier [] 0).2)).confidence).1 >
        (finalScores flipRouter.classifier []
        (llmClassification flipRouter.classifier.llmEnv
          ((classifyQuery flipRouter.classifier [] 0).2)).classification
        (llmClassification flipRouter.classifier.llmEnv
          ((classifyQuery flipRouter.classifier [] 0).2)).confidence).2 := by
      rw [show llmClassification flipRouter.classifier.llmEnv
          ((classifyQuery flipRouter.classifier [] 0).2) =
        (⟨QueryType.rag, max 0 (min 1 (1/5)),
          "Could not parse LLM response".data⟩ : LLMVerdict)
        from flip_verdict_second]
      rw [show (⟨QueryType.rag, max 0 (min 1 (1/5)),
          "Could not parse LLM response".data⟩ : LLMVerdict).classification =
        QueryType.rag from rfl]
      rw [show (⟨QueryType.rag, max 0 (min 1 (1/5)),
          "Could not parse LLM response".data⟩ : LLMVerdict).confidence =
        max 0 (min 1 (1/5)) from rfl]
      rw [show finalScores flipRouter.classifier [] QueryType.rag
        (max 0 (min 1 (1/5))) = ((1/8 : ℚ), (7/40 : ℚ)) from flip_scores_rag]
      norm_num
    have ht := routeTry_ambiguous_rag flipRouter [] none ⟨0, 0, 0⟩ (by decide)
      (by decide) (by decide) hamb2 hle
    refine ⟨hv0, hv1, hfav, hamb2, ?_, ?_⟩
    · rw [routeQuery_of_ok (ht.trans
        (capabilityDispatch_ok (rfl : flipRouter.processRegularQuery [] =
          .ok "RAG-ANSWER".data) ragAgentName
          (fun s => s ++ ambiguousDisclaimer ragAgentName) _ _))]
    · rw [routeQuery_stats, ht, capabilityDispatch_val_stats]
      show (classifyQuery flipRouter.classifier [] (0 : Nat)).2 + 1 = 0 + 2
      rw [classifyQuery_calls]

/-- Claim C9 witness: the two-completion-calls count evaluated on the flip
router. -/
theorem routeQuery_ambiguous_recomputes_witness :
    (classifyQuery flipRouter.classifier [] 0).1.queryType =
      QueryType.ambiguous ∧
    (routeQuery flipRouter [] none ⟨0, 0, 0⟩).2.llmCalls = 0 + 2 := by
  have hamb : (classifyQuery flipRouter.classifier [] 0).1.queryType =
      QueryType.ambiguous := flip_classified
  have h := routeQuery_ambiguous_recomputes flipRouter [] none ⟨0, 0, 0⟩
    (by decide) (by decide) (by decide) hamb
  exact ⟨hamb, h.1⟩

/-! ## Claim C10 -/

/-- Claim C10 (counterexample to the claim as stated): an empty-string
`force_route` is neither `sql` nor `rag`, yet — being falsy in Python — it
does not raise: the question is classified normally, a classification record
is constructed and a capability dispatched with `success=True`. -/
theorem routeQuery_empty_force_not_error :
    pyLower ([] : Str) ≠ "sql".data ∧
    pyLower ([] : Str) ≠ "rag".data ∧
    (routeQuery strongSqlRouter [] (some []) ⟨0, 0, 0⟩).1.success = true ∧
    ¬ (routeQuery strongSqlRouter [] (some []) ⟨0, 0, 0⟩).1.classification =
      none := by
  have hq : (classifyQuery strongSqlRouter.classifier [] 0).1.queryType =
      QueryType.sql := strongSql_classified.1
  have hge : (classifyQuery strongSqlRouter.classifier [] 0).1.confidence ≥
      strongSqlRouter.confidenceThreshold := by
    rw [show (classifyQuery strongSqlRouter.classifier [] 0).1.confidence = 3/4
      from strongSql_classified.2]
    norm_num [strongSqlRouter, mkRouterEnv]
  have ht := routeTry_sql_pass strongSqlRouter [] (some []) ⟨0, 0, 0⟩
    (by decide) (by decide) (by decide) hq hge
  have hrq := routeQuery_of_ok (ht.trans
    (capabilityDispatch_ok (rfl : strongSqlRouter.sqlAsk [] =
      .ok "SQL-ANSWER".data) sqlAgentName (fun s => s) _ _))
  refine ⟨by decide, by decide, ?_, ?_⟩
  · rw [hrq]
  · rw [hrq]
    simp

/-- Claim C10 (amended): if `route_query` is called with a truthy (non-empty)
`force_route` that is neither `sql` nor `rag` case-insensitively, and the
question carries no force prefix, no classification result is constructed:
the unbound-local error is caught by the top-level handler and the call
returns `success=False` with the generic apology, a null classification
field, the prefixed unbound-local error text, and no capability or
completion-service call. -/
theorem routeQuery_bad_force (env : RouterEnv) (q s : Str) (st : Stats)
    (hp1 : pyStartsWith (pyLower q) forceSqlPrefix = false)
    (hp2 : pyStartsWith (pyLower q) forceRagPrefix = false)
    (hs : s ≠ [])
    (hsql : pyLower s ≠ "sql".data)
    (hrag : pyLower s ≠ "rag".data) :
    (routeQuery env q (some s) st).1.success = false ∧
    (routeQuery env q (some s) st).1.classification = none ∧
    (routeQuery env q (some s) st).1.response = some apologyMsg ∧
    (routeQuery env q (some s) st).1.error =
      some (routingErrorPrefix ++ unboundLocalMsg) ∧
    (routeQuery env q (some s) st).2 = st := by
  have ht := routeTry_forced_bad env q s st hp1 hp2 hs hsql hrag
  rw [routeQuery_of_exn ht]
  exact ⟨rfl, rfl, rfl, rfl, rfl⟩

/-- Claim C10 witness: the amended behavior at the concrete bad directive
`xyz`. -/
theorem routeQuery_bad_force_witness :
    pyLower "xyz".data ≠ "sql".data ∧
    (routeQuery strongSqlRouter [] (some "xyz".data) ⟨0, 0, 0⟩).1.success =
      false ∧
    (routeQuery strongSqlRouter [] (some "xyz".data) ⟨0, 0, 0⟩).1.classification =
      none ∧
    (routeQuery strongSqlRouter [] (some "xyz".data) ⟨0, 0, 0⟩).1.response =
      some apologyMsg ∧
    (routeQuery strongSqlRouter [] (some "xyz".data) ⟨0, 0, 0⟩).2 =
      (⟨0, 0, 0⟩ : Stats) := by
  have h := routeQuery_bad_force strongSqlRouter [] "xyz".data ⟨0, 0, 0⟩
    (by decide) (by decide) (by decide) (by decide) (by decide)
  exact ⟨by decide, h.1, h.2.1, h.2.2.1, h.2.2.2.2⟩

end RAIH
